import Mathlib

/-!
Transaction verification of the zkbnb / zecrey-legend rollup.

A shallow embedding of

* `common/zcrypto/txVerification/withdraw.go`     (`VerifyWithdrawTxInfo`)
* `common/zcrypto/txVerification/setNftPrice.go`  (`VerifySetNftPriceTxInfo`)
* `service/api/app/internal/logic/transaction/gettxsbypubkeylogic.go`
  (`GetTxsByPubKey`)

Conventions of the embedding.

* A Go map `map[int64]*T` is a function `Int → Option T`: indexing a Go map
  never fails, and a missing key and a stored nil pointer both read as `nil`,
  which is `none` here.  A nil inner map indexes to `nil` as well (`index2`).
* `int64` indices and nonces are `Int`; no arithmetic is done on them.
* `*big.Int` is `Int`; the payload and its amounts are taken to be non-nil.
  `ffmath.Neg/Add/Sub` are the exact integer operations of `math/big`.
* A Go function returning `(txDetails, err)` returns `Outcome.ret txDetails err`;
  a run-time panic (nil pointer dereference, write to a nil map) is
  `Outcome.panic`.
* The hash and signature primitives live in external libraries; they are the
  fields of a `Primitives` record the verifiers are parameterised by.
* `uint32` values are `Nat`, reduced modulo `2^32` where Go computes them.
-/

namespace TxVerification

/-! ## Data model -/

/-- The fields of `account.Account` the verifiers read. -/
structure Account where
  AccountName : String
  PublicKey : String
  Nonce : Int
  deriving DecidableEq, Repr

/-- The field of `asset.AccountAsset` the verifiers read. -/
structure AccountAsset where
  Balance : String
  deriving DecidableEq, Repr

/-- The fields of `nft.L2Nft` read by `VerifySetNftPriceTxInfo`. -/
structure L2Nft where
  NftIndex : Int
  CreatorAccountIndex : Int
  OwnerAccountIndex : Int
  AssetId : Int
  AssetAmount : String
  NftContentHash : String
  NftL1TokenId : String
  NftL1Address : String
  deriving DecidableEq, Repr

/-- The `NftInfo` literal built in `setNftPrice.go`. -/
structure NftInfo where
  NftIndex : Int
  CreatorAccountIndex : Int
  OwnerAccountIndex : Int
  AssetId : Int
  AssetAmount : String
  NftContentHash : String
  NftL1TokenId : String
  NftL1Address : String
  deriving DecidableEq, Repr

/-- Modelled from the spec: the asset kind of a record (fungible | non-fungible);
the Go constants `GeneralAssetType` and `NftAssetType` are declared outside the
files at hand. -/
inductive AssetType where
  | GeneralAssetType
  | NftAssetType
  deriving DecidableEq, Repr

export AssetType (GeneralAssetType NftAssetType)

/-- The `MempoolTxDetail` literal built by both verifiers. -/
structure MempoolTxDetail where
  AssetId : Int
  AssetType : AssetType
  AccountIndex : Int
  AccountName : String
  Balance : String
  BalanceDelta : String
  deriving DecidableEq, Repr

/-- Serialized signature, as opaque bytes. -/
abbrev Signature := List Int
/-- Message digest, as opaque bytes. -/
abbrev MsgHash := List Int
/-- Parsed public key, as opaque bytes. -/
abbrev PublicKey := List Int

/-- The fields of `WithdrawTxInfo` read by `VerifyWithdrawTxInfo`. -/
structure WithdrawTxInfo where
  FromAccountIndex : Int
  AssetId : Int
  AssetAmount : Int
  GasAccountIndex : Int
  GasFeeAssetId : Int
  GasFeeAssetAmount : Int
  Nonce : Int
  Sig : Signature
  deriving DecidableEq, Repr

/-- The fields of `SetNftPriceTxInfo` read by `VerifySetNftPriceTxInfo`. -/
structure SetNftPriceTxInfo where
  AccountIndex : Int
  NftIndex : Int
  NftContentHash : String
  AssetId : Int
  AssetAmount : Int
  GasAccountIndex : Int
  GasFeeAssetId : Int
  GasFeeAssetAmount : Int
  Nonce : Int
  Sig : Signature
  deriving DecidableEq, Repr

/-- A Go `error` value: made by `errors.New` in the verifier itself, or handed
back by `ParsePkStr` / `pk.Verify`. -/
inductive GoError where
  | errorsNew (msg : String)
  | external (msg : String)
  deriving DecidableEq, Repr

/-- What a call of a verifier does: panic, or return `(txDetails, err)`. -/
inductive Outcome where
  | panic
  | ret (txDetails : List MempoolTxDetail) (err : Option GoError)
  deriving DecidableEq, Repr

/-- The external primitives: `ParsePkStr`, `pk.Verify(sig, msgHash, hFunc)` on a
freshly reset hash function, the two message hashes of `legendTxTypes`, and the
string encoding `(*NftInfo).String()`. -/
structure Primitives where
  ParsePkStr : String → Except String PublicKey
  Verify : PublicKey → Signature → MsgHash → Except String Bool
  ComputeWithdrawMsgHash : WithdrawTxInfo → MsgHash
  ComputeSetNftPriceMsgHash : SetNftPriceTxInfo → MsgHash
  NftInfoString : NftInfo → String

/-! ## Go maps -/

/-- Go map `map[int64]*T`, through its lookup. -/
abbrev GoMap (β : Type) := Int → Option β

/-- The map `make(map[int64]T)`. -/
def emptyMap {β : Type} : GoMap β := fun _ => none

/-- Assignment `m[k] = v`. -/
def mapSet {β : Type} (m : GoMap β) (k : Int) (v : β) : GoMap β :=
  fun j => if j = k then some v else m j

/-- Lookup `m[a][b]`; indexing the nil inner map yields nil. -/
def index2 {β : Type} (m : GoMap (GoMap β)) (a b : Int) : Option β :=
  match m a with
  | none => none
  | some inner => inner b

/-- The delta map `map[int64]map[int64]*big.Int`. -/
abbrev DeltaMap := GoMap (GoMap Int)

/-- Assignment `m[a][b] = v`; writing into a nil inner map panics (`none`). -/
def set2 (m : DeltaMap) (a b : Int) (v : Int) : Option DeltaMap :=
  match m a with
  | none => none
  | some inner => some (mapSet m a (mapSet inner b v))

/-- Dereference of a pointer: nil panics. -/
def deref {α : Type} (p : Option α) (k : α → Outcome) : Outcome :=
  match p with
  | none => Outcome.panic
  | some a => k a

/-! ## big.Int -/

namespace ffmath

/-- Go `ffmath.Neg`. -/
def Neg (a : Int) : Int := -a
/-- Go `ffmath.Add`. -/
def Add (a b : Int) : Int := a + b
/-- Go `ffmath.Sub`. -/
def Sub (a b : Int) : Int := a - b

end ffmath

/-- Go `(*big.Int).String()`: the decimal rendering; a nil receiver renders as
`<nil>`. -/
def bigString (x : Option Int) : String :=
  match x with
  | none => "<nil>"
  | some v => toString v

/-- Value of a decimal digit character. -/
def digitVal (c : Char) : Nat := c.toNat - 48

/-- Digits of a decimal numeral, most significant first, to their value. -/
def digitsVal (cs : List Char) : Nat := cs.foldl (fun acc c => acc * 10 + digitVal c) 0

/-- Unsigned decimal numeral: at least one character, all of them digits. -/
def parseNat10 (cs : List Char) : Option Nat :=
  if cs ≠ [] ∧ cs.all Char.isDigit then some (digitsVal cs) else none

/-- Go `new(big.Int).SetString(s, 10)`: an optional sign followed by a non-empty
run of decimal digits, the whole string consumed. -/
def SetString10 (s : String) : Option Int :=
  match s.data with
  | [] => none
  | c :: cs =>
    if c = '-' then (parseNat10 cs).map fun n => -(n : Int)
    else if c = '+' then (parseNat10 cs).map fun n => (n : Int)
    else (parseNat10 (c :: cs)).map fun n => (n : Int)

/-! ## withdraw.go -/

/-- The condition of the `verify params` block of `VerifyWithdrawTxInfo`. -/
def withdrawParamsInvalid (accountInfoMap : GoMap Account)
    (assetInfoMap : GoMap (GoMap AccountAsset)) (txInfo : WithdrawTxInfo) : Bool :=
  (accountInfoMap txInfo.FromAccountIndex).isNone ||
  (accountInfoMap txInfo.GasAccountIndex).isNone ||
  (assetInfoMap txInfo.FromAccountIndex).isNone ||
  (index2 assetInfoMap txInfo.FromAccountIndex txInfo.AssetId).isNone ||
  (index2 assetInfoMap txInfo.FromAccountIndex txInfo.GasFeeAssetId).isNone ||
  (assetInfoMap txInfo.GasAccountIndex).isNone ||
  (index2 assetInfoMap txInfo.GasAccountIndex txInfo.GasFeeAssetId).isNone ||
  decide (txInfo.AssetAmount < 0) ||
  decide (txInfo.GasFeeAssetAmount < 0)

/-- The delta map built by `VerifyWithdrawTxInfo` (lines 66-93); `none` is a
write into a nil inner map. -/
def withdrawDeltaMap (txInfo : WithdrawTxInfo) : Option DeltaMap :=
  let m0 : DeltaMap := emptyMap
  -- init delta map
  let m1 := mapSet m0 txInfo.FromAccountIndex emptyMap
  let m2 := if (m1 txInfo.GasAccountIndex).isNone
    then mapSet m1 txInfo.GasAccountIndex emptyMap else m1
  -- from account asset A
  (set2 m2 txInfo.FromAccountIndex txInfo.AssetId (ffmath.Neg txInfo.AssetAmount)).bind fun m3 =>
  -- from account asset Gas
  (match index2 m3 txInfo.FromAccountIndex txInfo.GasFeeAssetId with
    | none =>
      set2 m3 txInfo.FromAccountIndex txInfo.GasFeeAssetId (ffmath.Neg txInfo.GasFeeAssetAmount)
    | some d =>
      set2 m3 txInfo.FromAccountIndex txInfo.GasFeeAssetId
        (ffmath.Sub d txInfo.GasFeeAssetAmount)).bind fun m4 =>
  -- gas account asset Gas
  match index2 m4 txInfo.GasAccountIndex txInfo.GasFeeAssetId with
  | none => set2 m4 txInfo.GasAccountIndex txInfo.GasFeeAssetId txInfo.GasFeeAssetAmount
  | some d =>
    set2 m4 txInfo.GasAccountIndex txInfo.GasFeeAssetId (ffmath.Add d txInfo.GasFeeAssetAmount)

/-- Go `VerifyWithdrawTxInfo`. -/
def VerifyWithdrawTxInfo (prim : Primitives) (accountInfoMap : GoMap Account)
    (assetInfoMap : GoMap (GoMap AccountAsset)) (txInfo : WithdrawTxInfo) : Outcome :=
  -- verify params
  if withdrawParamsInvalid accountInfoMap assetInfoMap txInfo then
    Outcome.ret [] (some (GoError.errorsNew "[VerifyTransferNftTxInfo] invalid params"))
  else
  -- verify nonce
  deref (accountInfoMap txInfo.FromAccountIndex) fun fromAccount =>
  if txInfo.Nonce ≠ fromAccount.Nonce then
    Outcome.ret [] (some (GoError.errorsNew "[VerifyWithdrawTxInfo] invalid nonce"))
  else
  deref (withdrawDeltaMap txInfo) fun assetDeltaMap =>
  -- check balance
  -- compute hash
  let msgHash := prim.ComputeWithdrawMsgHash txInfo
  -- verify signature
  match prim.ParsePkStr fromAccount.PublicKey with
  | Except.error e => Outcome.ret [] (some (GoError.external e))
  | Except.ok pk =>
  match prim.Verify pk txInfo.Sig msgHash with
  | Except.error e => Outcome.ret [] (some (GoError.external e))
  | Except.ok isValid =>
  if !isValid then
    Outcome.ret [] (some (GoError.errorsNew "[VerifyWithdrawTxInfo] invalid signature"))
  else
  -- compute tx details
  deref (index2 assetInfoMap txInfo.FromAccountIndex txInfo.AssetId) fun fromAssetA =>
  deref (index2 assetInfoMap txInfo.FromAccountIndex txInfo.GasFeeAssetId) fun fromAssetGas =>
  deref (accountInfoMap txInfo.GasAccountIndex) fun gasAccount =>
  deref (index2 assetInfoMap txInfo.GasAccountIndex txInfo.GasFeeAssetId) fun gasAssetGas =>
  Outcome.ret
    [ -- from account asset A
      { AssetId := txInfo.AssetId
        AssetType := GeneralAssetType
        AccountIndex := txInfo.FromAccountIndex
        AccountName := fromAccount.AccountName
        Balance := fromAssetA.Balance
        BalanceDelta := bigString (index2 assetDeltaMap txInfo.FromAccountIndex txInfo.AssetId) },
      -- from account asset gas
      { AssetId := txInfo.GasFeeAssetId
        AssetType := GeneralAssetType
        AccountIndex := txInfo.FromAccountIndex
        AccountName := fromAccount.AccountName
        Balance := fromAssetGas.Balance
        BalanceDelta :=
          bigString (index2 assetDeltaMap txInfo.FromAccountIndex txInfo.GasFeeAssetId) },
      -- gas account asset gas
      { AssetId := txInfo.GasFeeAssetId
        AssetType := GeneralAssetType
        AccountIndex := txInfo.GasAccountIndex
        AccountName := gasAccount.AccountName
        Balance := gasAssetGas.Balance
        BalanceDelta :=
          bigString (index2 assetDeltaMap txInfo.GasAccountIndex txInfo.GasFeeAssetId) } ]
    none

/-! ## setNftPrice.go -/

/-- The condition of the `verify params` block of `VerifySetNftPriceTxInfo`,
evaluated left to right with short circuit: `some b` is its value, `none` is the
nil pointer dereference of `nftInfoMap[txInfo.NftIndex]`. -/
def setNftPriceParamsInvalid (accountInfoMap : GoMap Account)
    (assetInfoMap : GoMap (GoMap AccountAsset)) (nftInfoMap : GoMap L2Nft)
    (txInfo : SetNftPriceTxInfo) : Option Bool :=
  if (accountInfoMap txInfo.AccountIndex).isNone ||
      (accountInfoMap txInfo.GasAccountIndex).isNone ||
      (assetInfoMap txInfo.AccountIndex).isNone ||
      (index2 assetInfoMap txInfo.AccountIndex txInfo.GasFeeAssetId).isNone ||
      (assetInfoMap txInfo.GasAccountIndex).isNone ||
      (index2 assetInfoMap txInfo.GasAccountIndex txInfo.GasFeeAssetId).isNone ||
      (nftInfoMap txInfo.AccountIndex).isNone then
    some true
  else
    match nftInfoMap txInfo.NftIndex with
    | none => none
    | some n =>
      some (decide (n.OwnerAccountIndex ≠ txInfo.AccountIndex) ||
        decide (n.NftIndex ≠ txInfo.NftIndex) ||
        decide (n.NftContentHash ≠ txInfo.NftContentHash) ||
        decide (txInfo.GasFeeAssetAmount < 0) ||
        decide (txInfo.AssetAmount < 0))

/-- The delta map built by `VerifySetNftPriceTxInfo` (lines 74-103); `none` is a
write into a nil inner map. -/
def setNftPriceDeltaMap (txInfo : SetNftPriceTxInfo) : Option DeltaMap :=
  let m0 : DeltaMap := emptyMap
  -- init delta map
  let m1 := mapSet m0 txInfo.AccountIndex emptyMap
  let m2 := if (m1 txInfo.GasAccountIndex).isNone
    then mapSet m1 txInfo.GasAccountIndex emptyMap else m1
  -- from account asset Gas
  (set2 m2 txInfo.AccountIndex txInfo.GasFeeAssetId
    (ffmath.Neg txInfo.GasFeeAssetAmount)).bind fun m3 =>
  -- gas account asset Gas
  match index2 m3 txInfo.GasAccountIndex txInfo.GasFeeAssetId with
  | none => set2 m3 txInfo.GasAccountIndex txInfo.GasFeeAssetId txInfo.GasFeeAssetAmount
  | some d =>
    set2 m3 txInfo.GasAccountIndex txInfo.GasFeeAssetId (ffmath.Add d txInfo.GasFeeAssetAmount)

/-- The literal `newNftInfo` (lines 85-94). -/
def newNftInfo (n : L2Nft) (txInfo : SetNftPriceTxInfo) : NftInfo where
  NftIndex := n.NftIndex
  CreatorAccountIndex := n.CreatorAccountIndex
  OwnerAccountIndex := n.OwnerAccountIndex
  AssetId := txInfo.AssetId
  AssetAmount := bigString (some txInfo.AssetAmount)
  NftContentHash := n.NftContentHash
  NftL1TokenId := n.NftL1TokenId
  NftL1Address := n.NftL1Address

/-- The literal `oldNftInfo` (lines 143-152). -/
def oldNftInfo (n : L2Nft) : NftInfo where
  NftIndex := n.NftIndex
  CreatorAccountIndex := n.CreatorAccountIndex
  OwnerAccountIndex := n.OwnerAccountIndex
  AssetId := n.AssetId
  AssetAmount := n.AssetAmount
  NftContentHash := n.NftContentHash
  NftL1TokenId := n.NftL1TokenId
  NftL1Address := n.NftL1Address

/-- Go `VerifySetNftPriceTxInfo`. -/
def VerifySetNftPriceTxInfo (prim : Primitives) (accountInfoMap : GoMap Account)
    (assetInfoMap : GoMap (GoMap AccountAsset)) (nftInfoMap : GoMap L2Nft)
    (txInfo : SetNftPriceTxInfo) : Outcome :=
  -- verify params
  deref (setNftPriceParamsInvalid accountInfoMap assetInfoMap nftInfoMap txInfo) fun invalid =>
  if invalid then
    Outcome.ret [] (some (GoError.errorsNew "[VerifySetNftPriceTxInfo] invalid params"))
  else
  -- verify nonce
  deref (accountInfoMap txInfo.AccountIndex) fun fromAccount =>
  if txInfo.Nonce ≠ fromAccount.Nonce then
    Outcome.ret [] (some (GoError.errorsNew "[VerifySetNftPriceTxInfo] invalid nonce"))
  else
  -- set tx info
  deref (nftInfoMap txInfo.NftIndex) fun nftInfo =>
  deref (setNftPriceDeltaMap txInfo) fun assetDeltaMap =>
  -- check balance
  deref (index2 assetInfoMap txInfo.AccountIndex txInfo.GasFeeAssetId) fun fromAssetGas =>
  match SetString10 fromAssetGas.Balance with
  | none =>
    Outcome.ret [] (some (GoError.errorsNew "[VerifyMintNftTxInfo] unable to parse balance"))
  | some assetGasBalance =>
  if assetGasBalance < txInfo.GasFeeAssetAmount then
    Outcome.ret []
      (some (GoError.errorsNew
        "[VerifyMintNftTxInfo] you don't have enough balance of asset Gas"))
  else
  -- compute hash
  let msgHash := prim.ComputeSetNftPriceMsgHash txInfo
  -- verify signature
  match prim.ParsePkStr fromAccount.PublicKey with
  | Except.error e => Outcome.ret [] (some (GoError.external e))
  | Except.ok pk =>
  match prim.Verify pk txInfo.Sig msgHash with
  | Except.error e => Outcome.ret [] (some (GoError.external e))
  | Except.ok isValid =>
  if !isValid then
    Outcome.ret [] (some (GoError.errorsNew "[VerifySetNftPriceTxInfo] invalid signature"))
  else
  -- compute tx details
  deref (accountInfoMap txInfo.GasAccountIndex) fun gasAccount =>
  deref (index2 assetInfoMap txInfo.GasAccountIndex txInfo.GasFeeAssetId) fun gasAssetGas =>
  Outcome.ret
    [ -- from account asset gas
      { AssetId := txInfo.GasFeeAssetId
        AssetType := GeneralAssetType
        AccountIndex := txInfo.AccountIndex
        AccountName := fromAccount.AccountName
        Balance := fromAssetGas.Balance
        BalanceDelta :=
          bigString (index2 assetDeltaMap txInfo.AccountIndex txInfo.GasFeeAssetId) },
      -- from account nft delta
      { AssetId := txInfo.NftIndex
        AssetType := NftAssetType
        AccountIndex := txInfo.AccountIndex
        AccountName := fromAccount.AccountName
        Balance := prim.NftInfoString (oldNftInfo nftInfo)
        BalanceDelta := prim.NftInfoString (newNftInfo nftInfo txInfo) },
      -- gas account asset gas
      { AssetId := txInfo.GasFeeAssetId
        AssetType := GeneralAssetType
        AccountIndex := txInfo.GasAccountIndex
        AccountName := gasAccount.AccountName
        Balance := gasAssetGas.Balance
        BalanceDelta :=
          bigString (index2 assetDeltaMap txInfo.GasAccountIndex txInfo.GasFeeAssetId) } ]
    none

/-! ## Reading a record -/

/-- The signed delta a fungible record reports: its `BalanceDelta` string read
back as a decimal integer. -/
def deltaOf (d : MempoolTxDetail) : Option Int := SetString10 d.BalanceDelta

/-! ## Sample inputs -/

/-- A stand-in for the primitives: keys are the code points of a non-empty key
string, the digest lists the signed amounts, and a signature is valid when it is
the key followed by the digest. -/
def samplePrimitives : Primitives where
  ParsePkStr := fun s =>
    if s = "" then Except.error "invalid public key" else Except.ok (s.data.map fun c => (c.toNat : Int))
  Verify := fun pk sig msgHash => Except.ok (decide (sig = pk ++ msgHash))
  ComputeWithdrawMsgHash := fun t =>
    [t.FromAccountIndex, t.AssetId, t.AssetAmount, t.GasAccountIndex, t.GasFeeAssetId,
      t.GasFeeAssetAmount, t.Nonce]
  ComputeSetNftPriceMsgHash := fun t =>
    [t.AccountIndex, t.NftIndex, t.AssetId, t.AssetAmount, t.GasAccountIndex, t.GasFeeAssetId,
      t.GasFeeAssetAmount, t.Nonce]
  NftInfoString := fun n =>
    String.intercalate ","
      [toString n.NftIndex, toString n.CreatorAccountIndex, toString n.OwnerAccountIndex,
        toString n.AssetId, n.AssetAmount, n.NftContentHash, n.NftL1TokenId, n.NftL1Address]

/-- Accounts 5 (sender, nonce 7) and 9 (gas account). -/
def sampleAccounts : GoMap Account := fun i =>
  if i = 5 then some { AccountName := "alice.legend", PublicKey := "A", Nonce := 7 }
  else if i = 9 then some { AccountName := "gas.legend", PublicKey := "G", Nonce := 0 }
  else none

/-- Account 5 holds 1000 of asset 1 and 50 of asset 2; account 9 holds 20 of asset 2
and 3 of asset 1. -/
def sampleAssets : GoMap (GoMap AccountAsset) := fun i =>
  if i = 5 then some fun a =>
    if a = 1 then some { Balance := "1000" } else if a = 2 then some { Balance := "50" } else none
  else if i = 9 then some fun a =>
    if a = 2 then some { Balance := "20" } else if a = 1 then some { Balance := "3" } else none
  else none

/-- Account 5 withdraws 100 of asset 1 and pays 5 of asset 2 to account 9. -/
def sampleWithdraw : WithdrawTxInfo where
  FromAccountIndex := 5
  AssetId := 1
  AssetAmount := 100
  GasAccountIndex := 9
  GasFeeAssetId := 2
  GasFeeAssetAmount := 5
  Nonce := 7
  Sig := [65, 5, 1, 100, 9, 2, 5, 7]

/-- The NFT snapshot holds NFT 5 (owned by account 9) and NFT 42 (owned by
account 5, content hash `H`). -/
def sampleNfts : GoMap L2Nft := fun i =>
  if i = 42 then
    some { NftIndex := 42, CreatorAccountIndex := 3, OwnerAccountIndex := 5, AssetId := 0,
           AssetAmount := "0", NftContentHash := "H", NftL1TokenId := "77",
           NftL1Address := "0xabc" }
  else if i = 5 then
    some { NftIndex := 5, CreatorAccountIndex := 3, OwnerAccountIndex := 9, AssetId := 0,
           AssetAmount := "0", NftContentHash := "K", NftL1TokenId := "78",
           NftL1Address := "0xabc" }
  else none

/-- Account 5 prices its NFT 42 at 1000 of asset 1 and pays 5 of asset 2 to
account 9. -/
def sampleSetNftPrice : SetNftPriceTxInfo where
  AccountIndex := 5
  NftIndex := 42
  NftContentHash := "H"
  AssetId := 1
  AssetAmount := 1000
  GasAccountIndex := 9
  GasFeeAssetId := 2
  GasFeeAssetAmount := 5
  Nonce := 7
  Sig := [65, 5, 42, 1, 1000, 9, 2, 5, 7]

/-- The three records expected for `sampleWithdraw`. -/
def sampleWithdrawRecords : List MempoolTxDetail :=
  [ { AssetId := 1, AssetType := GeneralAssetType, AccountIndex := 5,
      AccountName := "alice.legend", Balance := "1000", BalanceDelta := "-100" },
    { AssetId := 2, AssetType := GeneralAssetType, AccountIndex := 5,
      AccountName := "alice.legend", Balance := "50", BalanceDelta := "-5" },
    { AssetId := 2, AssetType := GeneralAssetType, AccountIndex := 9,
      AccountName := "gas.legend", Balance := "20", BalanceDelta := "5" } ]

/-- Account 5 withdraws 5000 of asset 1, of which it holds 1000. -/
def overdrawnWithdraw : WithdrawTxInfo where
  FromAccountIndex := 5
  AssetId := 1
  AssetAmount := 5000
  GasAccountIndex := 9
  GasFeeAssetId := 2
  GasFeeAssetAmount := 5
  Nonce := 7
  Sig := [65, 5, 1, 5000, 9, 2, 5, 7]

/-- Account 5 withdraws 30 of asset 2 and pays the fee of 5 in asset 2 as well. -/
def sameAssetWithdraw : WithdrawTxInfo where
  FromAccountIndex := 5
  AssetId := 2
  AssetAmount := 30
  GasAccountIndex := 9
  GasFeeAssetId := 2
  GasFeeAssetAmount := 5
  Nonce := 7
  Sig := [65, 5, 2, 30, 9, 2, 5, 7]

/-- Account 5 withdraws 100 of asset 1 and pays the fee of 5 of asset 1 to itself. -/
def selfPayWithdraw : WithdrawTxInfo where
  FromAccountIndex := 5
  AssetId := 1
  AssetAmount := 100
  GasAccountIndex := 5
  GasFeeAssetId := 1
  GasFeeAssetAmount := 5
  Nonce := 7
  Sig := [65, 5, 1, 100, 5, 1, 5, 7]

/-- An NFT snapshot with an entry at key 5 and none at key 42. -/
def nftsWithout42 : GoMap L2Nft := fun i =>
  if i = 5 then
    some { NftIndex := 5, CreatorAccountIndex := 3, OwnerAccountIndex := 9, AssetId := 0,
           AssetAmount := "0", NftContentHash := "K", NftL1TokenId := "78",
           NftL1Address := "0xabc" }
  else none

/-- An NFT snapshot holding only the entry at index 42: owner 5, content hash `H`. -/
def nftsOnly42 : GoMap L2Nft := fun i =>
  if i = 42 then
    some { NftIndex := 42, CreatorAccountIndex := 3, OwnerAccountIndex := 5, AssetId := 0,
           AssetAmount := "0", NftContentHash := "H", NftL1TokenId := "77",
           NftL1Address := "0xabc" }
  else none

/-- The three records expected for `sampleSetNftPrice` on `sampleNfts`. -/
def sampleSetNftPriceRecords : List MempoolTxDetail :=
  [ { AssetId := 2, AssetType := GeneralAssetType, AccountIndex := 5,
      AccountName := "alice.legend", Balance := "50", BalanceDelta := "-5" },
    { AssetId := 42, AssetType := NftAssetType, AccountIndex := 5,
      AccountName := "alice.legend", Balance := "42,3,5,0,0,H,77,0xabc",
      BalanceDelta := "42,3,5,1,1000,H,77,0xabc" },
    { AssetId := 2, AssetType := GeneralAssetType, AccountIndex := 9,
      AccountName := "gas.legend", Balance := "20", BalanceDelta := "5" } ]

/-- The three records returned for `selfPayWithdraw`. -/
def selfPayWithdrawRecords : List MempoolTxDetail :=
  [ { AssetId := 1, AssetType := GeneralAssetType, AccountIndex := 5,
      AccountName := "alice.legend", Balance := "1000", BalanceDelta := "-100" },
    { AssetId := 1, AssetType := GeneralAssetType, AccountIndex := 5,
      AccountName := "alice.legend", Balance := "1000", BalanceDelta := "-100" },
    { AssetId := 1, AssetType := GeneralAssetType, AccountIndex := 5,
      AccountName := "alice.legend", Balance := "1000", BalanceDelta := "-100" } ]

/-- The accounts of `sampleAccounts`, the sender's stored public key being the empty
string, which `samplePrimitives.ParsePkStr` refuses. -/
def unparsableKeyAccounts : GoMap Account := fun i =>
  if i = 5 then some { AccountName := "alice.legend", PublicKey := "", Nonce := 7 }
  else if i = 9 then some { AccountName := "gas.legend", PublicKey := "G", Nonce := 0 }
  else none

/-- The three records returned for `sameAssetWithdraw`. -/
def sameAssetWithdrawRecords : List MempoolTxDetail :=
  [ { AssetId := 2, AssetType := GeneralAssetType, AccountIndex := 5,
      AccountName := "alice.legend", Balance := "50", BalanceDelta := "-35" },
    { AssetId := 2, AssetType := GeneralAssetType, AccountIndex := 5,
      AccountName := "alice.legend", Balance := "50", BalanceDelta := "-35" },
    { AssetId := 2, AssetType := GeneralAssetType, AccountIndex := 9,
      AccountName := "gas.legend", Balance := "20", BalanceDelta := "5" } ]

end TxVerification

/-! ## gettxsbypubkeylogic.go -/

namespace Transaction

/-- A row of the transaction table, as `GetTxByTxID` returns it. -/
structure GormTx where
  TxHash : String
  deriving DecidableEq, Repr

/-- The API form `types.Tx` of a transaction. -/
structure Tx where
  TxHash : String
  deriving DecidableEq, Repr

/-- The request `types.ReqGetTxsByPubKey`; `Offset` and `Limit` are `uint32`. -/
structure ReqGetTxsByPubKey where
  AccountPk : String
  Offset : Nat
  Limit : Nat
  deriving DecidableEq, Repr

/-- The response `types.RespGetTxsByPubKey`; `Total` is `uint32`. -/
structure RespGetTxsByPubKey where
  Total : Nat
  Txs : List Tx
  deriving DecidableEq, Repr

/-- The errors `GetTxsByPubKey` returns: `errcode.ErrInvalidParam`, or the error of
a repository call. -/
inductive ApiError where
  | ErrInvalidParam
  | repo (msg : String)
  deriving DecidableEq, Repr

/-- What a call of `GetTxsByPubKey` does: panic, or return `(resp, err)`, a nil
`resp` being `none`. -/
inductive Reply where
  | panic
  | ret (resp : Option RespGetTxsByPubKey) (err : Option ApiError)
  deriving DecidableEq, Repr

/-- The collaborators of `GetTxsByPubKeyLogic`, declared in other packages of the
repository: the account, transaction-detail and transaction repositories (an error
is its message), `utils.GormTx2Tx` and `checker.CheckOffset`. -/
structure Collaborators where
  GetAccountByPk : String → Except String Int
  GetTxIdsByAccountIndex : Int → Except String (List Int)
  GetTxByTxID : Int → Except String GormTx
  GormTx2Tx : GormTx → Tx
  CheckOffset : Nat → Nat → Bool

/-- Conversion to `uint32`, and `uint32` arithmetic: reduction modulo `2^32`. -/
def uint32 (n : Nat) : Nat := n % 2 ^ 32

/-- Go slice expression `s[low:high]` on a slice whose capacity is its length:
`none` is the run-time panic for `low > high` or `high > cap(s)`. -/
def sliceRange {α : Type} (s : List α) (low high : Nat) : Option (List α) :=
  if low ≤ high ∧ high ≤ s.length then some ((s.drop low).take (high - low)) else none

/-- The `for _, id := range ...` loop of `GetTxsByPubKey` (lines 69-76): fetch each
transaction and append its API form to `resp.Txs`; the first error ends the call. -/
def fetchTxs (c : Collaborators) : List Int → List Tx → Except String (List Tx)
  | [], txs => Except.ok txs
  | id :: ids, txs =>
    match c.GetTxByTxID id with
    | Except.error err => Except.error err
    | Except.ok tx => fetchTxs c ids (txs ++ [c.GormTx2Tx tx])

/-- The window end computed on lines 65-68. -/
def windowEnd (total offset limit : Nat) : Nat :=
  if total < uint32 (offset + limit) then total else uint32 (offset + limit)

/-- Go `(*GetTxsByPubKeyLogic).GetTxsByPubKey`. -/
def GetTxsByPubKey (c : Collaborators) (req : ReqGetTxsByPubKey) : Reply :=
  match c.GetAccountByPk req.AccountPk with
  | Except.error err => Reply.ret (some { Total := 0, Txs := [] }) (some (ApiError.repo err))
  | Except.ok accountIndex =>
  match c.GetTxIdsByAccountIndex accountIndex with
  | Except.error err => Reply.ret none (some (ApiError.repo err))
  | Except.ok txIds =>
  let total := uint32 txIds.length
  if c.CheckOffset req.Offset total then
    Reply.ret none (some ApiError.ErrInvalidParam)
  else
  let end_ := windowEnd total req.Offset req.Limit
  match sliceRange txIds req.Offset end_ with
  | none => Reply.panic
  | some ids =>
  match fetchTxs c ids [] with
  | Except.error err => Reply.ret none (some (ApiError.repo err))
  | Except.ok txs => Reply.ret (some { Total := total, Txs := txs }) none

/-- Collaborators for the examples: every public key belongs to account 5, which
has the ten transactions 100..109; transaction `id` has hash `tx<id>`; an offset is
refused when it exceeds the total. -/
def sampleCollaborators : Collaborators where
  GetAccountByPk := fun _ => Except.ok 5
  GetTxIdsByAccountIndex := fun i =>
    if i = 5 then Except.ok [100, 101, 102, 103, 104, 105, 106, 107, 108, 109]
    else Except.ok []
  GetTxByTxID := fun id => Except.ok { TxHash := "tx" ++ toString id }
  GormTx2Tx := fun tx => { TxHash := tx.TxHash }
  CheckOffset := fun offset total => decide (total < offset)

end Transaction

namespace TxVerification

/-! ## Decimal rendering and parsing agree -/

/-- The decimal digit characters are digits and carry their value. -/
theorem digitChar_isDigit (d : Nat) (h : d < 10) :
    (Nat.digitChar d).isDigit = true ∧ digitVal (Nat.digitChar d) = d := by
  interval_cases d <;> decide

/-- What `Nat.toDigitsCore` emits is a non-empty run of digits whose value is `n`,
in front of the accumulator. -/
theorem toDigitsCore_digits (fuel : Nat) : ∀ (n : Nat) (ds : List Char), n < fuel →
    (∀ c ∈ ds, c.isDigit = true) →
    (∀ c ∈ Nat.toDigitsCore 10 fuel n ds, c.isDigit = true) ∧
    Nat.toDigitsCore 10 fuel n ds ≠ [] ∧
    (Nat.toDigitsCore 10 fuel n ds).foldl (fun acc c => acc * 10 + digitVal c) 0 =
      ds.foldl (fun acc c => acc * 10 + digitVal c) n := by
  induction fuel with
  | zero => intro n ds h; omega
  | succ fuel ih =>
    intro n ds hn hds
    have hd := digitChar_isDigit (n % 10) (Nat.mod_lt _ (by decide))
    have hds' : ∀ c ∈ Nat.digitChar (n % 10) :: ds, c.isDigit = true := by
      intro c hc
      rcases List.mem_cons.1 hc with h | h
      · rw [h]; exact hd.1
      · exact hds c h
    unfold Nat.toDigitsCore
    by_cases h0 : n / 10 = 0
    · simp only [h0, if_true]
      refine ⟨hds', by simp, ?_⟩
      have hmod : n % 10 = n := by omega
      rw [List.foldl_cons, hd.2, hmod, Nat.zero_mul, Nat.zero_add]
    · simp only [h0, if_false]
      have hlt : n / 10 < fuel := by omega
      obtain ⟨a, b, c⟩ := ih (n / 10) (Nat.digitChar (n % 10) :: ds) hlt hds'
      refine ⟨a, b, ?_⟩
      rw [c, List.foldl_cons, hd.2]
      congr 1
      omega

/-- An unsigned numeral reads back as its value. -/
theorem parseNat10_toDigits (n : Nat) : parseNat10 (Nat.toDigits 10 n) = some n := by
  obtain ⟨a, b, c⟩ := toDigitsCore_digits (n + 1) n [] (by omega) (by simp)
  have hall : (Nat.toDigits 10 n).all Char.isDigit = true := by
    rw [List.all_eq_true]; exact a
  unfold parseNat10
  rw [if_pos ⟨b, hall⟩]
  simp only [digitsVal]
  rw [Nat.toDigits, c]
  simp

/-- Reading `(*big.Int).String()` back with `SetString(_, 10)` gives the integer. -/
theorem SetString10_bigString (x : Int) : SetString10 (bigString (some x)) = some x := by
  cases x with
  | ofNat n =>
    obtain ⟨a, b, c⟩ := toDigitsCore_digits (n + 1) n [] (by omega) (by simp)
    have hdata : (bigString (some (Int.ofNat n))).data = Nat.toDigits 10 n := rfl
    unfold SetString10
    rw [hdata]
    cases hds : Nat.toDigits 10 n with
    | nil => exact absurd hds b
    | cons c cs =>
      have hc : c.isDigit = true := a c (by rw [← Nat.toDigits] ; rw [hds]; simp)
      have h1 : c ≠ '-' := by rintro rfl; revert hc; decide
      have h2 : c ≠ '+' := by rintro rfl; revert hc; decide
      simp only [h1, h2, if_false]
      rw [← hds, parseNat10_toDigits]
      rfl
  | negSucc n =>
    have hdata : (bigString (some (Int.negSucc n))).data = '-' :: Nat.toDigits 10 (n + 1) := rfl
    unfold SetString10
    rw [hdata]
    simp only [if_true]
    rw [parseNat10_toDigits]
    rfl

/-! ## The delta map of a withdraw -/

/-- The three entries of the withdraw delta map the records are read from. -/
theorem withdrawDeltaMap_entries (t : WithdrawTxInfo) :
    ∃ m, withdrawDeltaMap t = some m ∧
      index2 m t.FromAccountIndex t.AssetId =
        some (if t.AssetId = t.GasFeeAssetId then
                (if t.FromAccountIndex = t.GasAccountIndex then -t.AssetAmount - t.GasFeeAssetAmount + t.GasFeeAssetAmount
                 else -t.AssetAmount - t.GasFeeAssetAmount)
              else -t.AssetAmount) ∧
      index2 m t.FromAccountIndex t.GasFeeAssetId =
        some (if t.AssetId = t.GasFeeAssetId then
                (if t.FromAccountIndex = t.GasAccountIndex then -t.AssetAmount - t.GasFeeAssetAmount + t.GasFeeAssetAmount
                 else -t.AssetAmount - t.GasFeeAssetAmount)
              else if t.FromAccountIndex = t.GasAccountIndex then -t.GasFeeAssetAmount + t.GasFeeAssetAmount
                 else -t.GasFeeAssetAmount) ∧
      index2 m t.GasAccountIndex t.GasFeeAssetId =
        some (if t.FromAccountIndex = t.GasAccountIndex then
                (if t.AssetId = t.GasFeeAssetId then -t.AssetAmount - t.GasFeeAssetAmount + t.GasFeeAssetAmount
                 else -t.GasFeeAssetAmount + t.GasFeeAssetAmount)
              else t.GasFeeAssetAmount) := by
  by_cases h1 : t.AssetId = t.GasFeeAssetId <;> by_cases h2 : t.FromAccountIndex = t.GasAccountIndex
  · simp [withdrawDeltaMap, mapSet, set2, index2, emptyMap, ffmath.Neg, ffmath.Add, ffmath.Sub, h1, h2]
  · have h2' : ¬ t.GasAccountIndex = t.FromAccountIndex := fun h => h2 h.symm
    simp [withdrawDeltaMap, mapSet, set2, index2, emptyMap, ffmath.Neg, ffmath.Add, ffmath.Sub, h1, h2, h2']
  · have h1' : ¬ t.GasFeeAssetId = t.AssetId := fun h => h1 h.symm
    simp [withdrawDeltaMap, mapSet, set2, index2, emptyMap, ffmath.Neg, ffmath.Add, ffmath.Sub, h1, h2, h1']
  · have h1' : ¬ t.GasFeeAssetId = t.AssetId := fun h => h1 h.symm
    have h2' : ¬ t.GasAccountIndex = t.FromAccountIndex := fun h => h2 h.symm
    simp [withdrawDeltaMap, mapSet, set2, index2, emptyMap, ffmath.Neg, ffmath.Add, ffmath.Sub, h1, h2, h1', h2']

/-- What an accepting run of `VerifyWithdrawTxInfo` has established, and the
records it returns. -/
theorem withdraw_accept_inv (prim : Primitives) (accountInfoMap : GoMap Account)
    (assetInfoMap : GoMap (GoMap AccountAsset)) (txInfo : WithdrawTxInfo)
    (ds : List MempoolTxDetail)
    (h : VerifyWithdrawTxInfo prim accountInfoMap assetInfoMap txInfo = Outcome.ret ds none) :
    ∃ fromAccount gasAccount fromAssetA fromAssetGas gasAssetGas assetDeltaMap pk,
      accountInfoMap txInfo.FromAccountIndex = some fromAccount ∧
      accountInfoMap txInfo.GasAccountIndex = some gasAccount ∧
      index2 assetInfoMap txInfo.FromAccountIndex txInfo.AssetId = some fromAssetA ∧
      index2 assetInfoMap txInfo.FromAccountIndex txInfo.GasFeeAssetId = some fromAssetGas ∧
      index2 assetInfoMap txInfo.GasAccountIndex txInfo.GasFeeAssetId = some gasAssetGas ∧
      0 ≤ txInfo.AssetAmount ∧ 0 ≤ txInfo.GasFeeAssetAmount ∧
      txInfo.Nonce = fromAccount.Nonce ∧
      prim.ParsePkStr fromAccount.PublicKey = Except.ok pk ∧
      prim.Verify pk txInfo.Sig (prim.ComputeWithdrawMsgHash txInfo) = Except.ok true ∧
      withdrawDeltaMap txInfo = some assetDeltaMap ∧
      ds =
        [ { AssetId := txInfo.AssetId, AssetType := GeneralAssetType,
            AccountIndex := txInfo.FromAccountIndex, AccountName := fromAccount.AccountName,
            Balance := fromAssetA.Balance,
            BalanceDelta :=
              bigString (index2 assetDeltaMap txInfo.FromAccountIndex txInfo.AssetId) },
          { AssetId := txInfo.GasFeeAssetId, AssetType := GeneralAssetType,
            AccountIndex := txInfo.FromAccountIndex, AccountName := fromAccount.AccountName,
            Balance := fromAssetGas.Balance,
            BalanceDelta :=
              bigString (index2 assetDeltaMap txInfo.FromAccountIndex txInfo.GasFeeAssetId) },
          { AssetId := txInfo.GasFeeAssetId, AssetType := GeneralAssetType,
            AccountIndex := txInfo.GasAccountIndex, AccountName := gasAccount.AccountName,
            Balance := gasAssetGas.Balance,
            BalanceDelta :=
              bigString (index2 assetDeltaMap txInfo.GasAccountIndex txInfo.GasFeeAssetId) } ] := by
  unfold VerifyWithdrawTxInfo at h
  by_cases hp : withdrawParamsInvalid accountInfoMap assetInfoMap txInfo = true
  · simp [hp] at h
  · simp only [hp] at h
    simp only [withdrawParamsInvalid, Bool.or_eq_true, not_or, Option.isNone_iff_eq_none,
      decide_eq_true_eq, not_lt] at hp
    obtain ⟨⟨⟨⟨⟨⟨⟨⟨h1, h2⟩, h3⟩, h4⟩, h5⟩, h6⟩, h7⟩, h8⟩, h9⟩ := hp
    obtain ⟨fromAccount, hF⟩ := Option.ne_none_iff_exists'.1 h1
    obtain ⟨gasAccount, hG⟩ := Option.ne_none_iff_exists'.1 h2
    obtain ⟨fromAssetA, hFA⟩ := Option.ne_none_iff_exists'.1 h4
    obtain ⟨fromAssetGas, hFG⟩ := Option.ne_none_iff_exists'.1 h5
    obtain ⟨gasAssetGas, hGG⟩ := Option.ne_none_iff_exists'.1 h7
    simp only [hF, hG, hFA, hFG, hGG, deref] at h
    by_cases hn : txInfo.Nonce = fromAccount.Nonce
    · cases hm : withdrawDeltaMap txInfo with
      | none => simp [hn, hm] at h
      | some assetDeltaMap =>
        cases hk : prim.ParsePkStr fromAccount.PublicKey with
        | error e => simp [hn, hm, hk] at h
        | ok pk =>
          cases hv : prim.Verify pk txInfo.Sig (prim.ComputeWithdrawMsgHash txInfo) with
          | error e => simp [hn, hm, hk, hv] at h
          | ok isValid =>
            cases isValid with
            | false => simp [hn, hm, hk, hv] at h
            | true =>
              simp [hn, hm, hk, hv] at h
              exact ⟨fromAccount, gasAccount, fromAssetA, fromAssetGas, gasAssetGas,
                assetDeltaMap, pk, hF, hG, hFA, hFG, hGG, h8, h9, hn, hk, hv, rfl, h.symm⟩
    · simp [hn] at h

/-! ## Claims -/

/-- C1: an accepted withdraw whose sender differs from the gas account and whose
asset differs from the gas-fee asset returns exactly three fungible records, in the
order (sender, AssetId, -AssetAmount), (sender, GasFeeAssetId, -GasFeeAssetAmount),
(gas account, GasFeeAssetId, +GasFeeAssetAmount), each with the account name and the
balance string of the snapshot entry of that (account, asset). -/
theorem withdraw_three_records (prim : Primitives) (accountInfoMap : GoMap Account)
    (assetInfoMap : GoMap (GoMap AccountAsset)) (txInfo : WithdrawTxInfo)
    (ds : List MempoolTxDetail)
    (hacc : VerifyWithdrawTxInfo prim accountInfoMap assetInfoMap txInfo = Outcome.ret ds none)
    (hsender : txInfo.FromAccountIndex ≠ txInfo.GasAccountIndex)
    (hasset : txInfo.AssetId ≠ txInfo.GasFeeAssetId) :
    ∃ fromAccount gasAccount fromAssetA fromAssetGas gasAssetGas,
      accountInfoMap txInfo.FromAccountIndex = some fromAccount ∧
      accountInfoMap txInfo.GasAccountIndex = some gasAccount ∧
      index2 assetInfoMap txInfo.FromAccountIndex txInfo.AssetId = some fromAssetA ∧
      index2 assetInfoMap txInfo.FromAccountIndex txInfo.GasFeeAssetId = some fromAssetGas ∧
      index2 assetInfoMap txInfo.GasAccountIndex txInfo.GasFeeAssetId = some gasAssetGas ∧
      ds =
        [ { AssetId := txInfo.AssetId, AssetType := GeneralAssetType,
            AccountIndex := txInfo.FromAccountIndex, AccountName := fromAccount.AccountName,
            Balance := fromAssetA.Balance,
            BalanceDelta := bigString (some (-txInfo.AssetAmount)) },
          { AssetId := txInfo.GasFeeAssetId, AssetType := GeneralAssetType,
            AccountIndex := txInfo.FromAccountIndex, AccountName := fromAccount.AccountName,
            Balance := fromAssetGas.Balance,
            BalanceDelta := bigString (some (-txInfo.GasFeeAssetAmount)) },
          { AssetId := txInfo.GasFeeAssetId, AssetType := GeneralAssetType,
            AccountIndex := txInfo.GasAccountIndex, AccountName := gasAccount.AccountName,
            Balance := gasAssetGas.Balance,
            BalanceDelta := bigString (some txInfo.GasFeeAssetAmount) } ] ∧
      ds.map deltaOf =
        [some (-txInfo.AssetAmount), some (-txInfo.GasFeeAssetAmount),
          some txInfo.GasFeeAssetAmount] := by
  obtain ⟨fromAccount, gasAccount, fromAssetA, fromAssetGas, gasAssetGas, m, pk, hF, hG, hFA,
    hFG, hGG, -, -, -, -, -, hm, hds⟩ :=
    withdraw_accept_inv prim accountInfoMap assetInfoMap txInfo ds hacc
  obtain ⟨m', hm', e1, e2, e3⟩ := withdrawDeltaMap_entries txInfo
  rw [hm] at hm'
  cases hm'
  rw [e1, e2, e3] at hds
  simp only [hsender, hasset, if_false] at hds
  refine ⟨fromAccount, gasAccount, fromAssetA, fromAssetGas, gasAssetGas, hF, hG, hFA, hFG, hGG,
    hds, ?_⟩
  rw [hds]
  simp only [List.map, deltaOf, SetString10_bigString]

/-- The sample withdraw (100 of asset 1, fee 5 of asset 2, sender 5, gas account 9)
is accepted with deltas `-100`, `-5`, `5`. -/
theorem withdraw_three_records_witness :
    VerifyWithdrawTxInfo samplePrimitives sampleAccounts sampleAssets sampleWithdraw =
      Outcome.ret sampleWithdrawRecords none ∧
    sampleWithdrawRecords.map (fun d => d.BalanceDelta) = ["-100", "-5", "5"] ∧
    ∃ fromAccount gasAccount fromAssetA fromAssetGas gasAssetGas,
      sampleAccounts sampleWithdraw.FromAccountIndex = some fromAccount ∧
      sampleAccounts sampleWithdraw.GasAccountIndex = some gasAccount ∧
      index2 sampleAssets sampleWithdraw.FromAccountIndex sampleWithdraw.AssetId =
        some fromAssetA ∧
      index2 sampleAssets sampleWithdraw.FromAccountIndex sampleWithdraw.GasFeeAssetId =
        some fromAssetGas ∧
      index2 sampleAssets sampleWithdraw.GasAccountIndex sampleWithdraw.GasFeeAssetId =
        some gasAssetGas ∧
      sampleWithdrawRecords =
        [ { AssetId := sampleWithdraw.AssetId, AssetType := GeneralAssetType,
            AccountIndex := sampleWithdraw.FromAccountIndex,
            AccountName := fromAccount.AccountName,
            Balance := fromAssetA.Balance,
            BalanceDelta := bigString (some (-sampleWithdraw.AssetAmount)) },
          { AssetId := sampleWithdraw.GasFeeAssetId, AssetType := GeneralAssetType,
            AccountIndex := sampleWithdraw.FromAccountIndex,
            AccountName := fromAccount.AccountName,
            Balance := fromAssetGas.Balance,
            BalanceDelta := bigString (some (-sampleWithdraw.GasFeeAssetAmount)) },
          { AssetId := sampleWithdraw.GasFeeAssetId, AssetType := GeneralAssetType,
            AccountIndex := sampleWithdraw.GasAccountIndex,
            AccountName := gasAccount.AccountName,
            Balance := gasAssetGas.Balance,
            BalanceDelta := bigString (some sampleWithdraw.GasFeeAssetAmount) } ] ∧
      sampleWithdrawRecords.map deltaOf =
        [some (-sampleWithdraw.AssetAmount), some (-sampleWithdraw.GasFeeAssetAmount),
          some sampleWithdraw.GasFeeAssetAmount] :=
  ⟨by decide, by decide,
    withdraw_three_records samplePrimitives sampleAccounts sampleAssets sampleWithdraw
      sampleWithdrawRecords (by decide) (by decide) (by decide)⟩

/-- C2: `VerifyWithdrawTxInfo` has no balance check: the withdraw of 5000 of asset 1
by account 5, whose snapshot balance of asset 1 is 1000, is accepted and reports the
delta `-5000`; no insufficient-balance error is returned. -/
theorem withdraw_overdrawn_accepted :
    (index2 sampleAssets overdrawnWithdraw.FromAccountIndex overdrawnWithdraw.AssetId).map
        (fun a => SetString10 a.Balance) = some (some 1000) ∧
    (1000 : Int) < overdrawnWithdraw.AssetAmount ∧
    VerifyWithdrawTxInfo samplePrimitives sampleAccounts sampleAssets overdrawnWithdraw =
      Outcome.ret
        [ { AssetId := 1, AssetType := GeneralAssetType, AccountIndex := 5,
            AccountName := "alice.legend", Balance := "1000", BalanceDelta := "-5000" },
          { AssetId := 2, AssetType := GeneralAssetType, AccountIndex := 5,
            AccountName := "alice.legend", Balance := "50", BalanceDelta := "-5" },
          { AssetId := 2, AssetType := GeneralAssetType, AccountIndex := 9,
            AccountName := "gas.legend", Balance := "20", BalanceDelta := "5" } ] none := by
  decide

/-- C3: on an NFT snapshot that has an entry at key `txInfo.AccountIndex` (5) and
none at key `txInfo.NftIndex` (42), `VerifySetNftPriceTxInfo` does not return the
invalid-params error: the nil check reads key `AccountIndex`, and the dereference of
`nftInfoMap[txInfo.NftIndex]` panics. -/
theorem setNftPrice_missing_nft_panics :
    nftsWithout42 sampleSetNftPrice.NftIndex = none ∧
    VerifySetNftPriceTxInfo samplePrimitives sampleAccounts sampleAssets nftsWithout42
      sampleSetNftPrice = Outcome.panic := by
  decide

/-- C4: on an NFT snapshot holding only the entry at index 42 (owner 5, content hash
`H`), the well-formed price-set of NFT 42 by account 5 is rejected with the
invalid-params error, because the snapshot has no entry at key `AccountIndex` (5);
with an entry there as well (`sampleNfts`) the same payload is accepted. -/
theorem setNftPrice_well_formed_rejected :
    VerifySetNftPriceTxInfo samplePrimitives sampleAccounts sampleAssets nftsOnly42
        sampleSetNftPrice =
      Outcome.ret [] (some (GoError.errorsNew "[VerifySetNftPriceTxInfo] invalid params")) ∧
    ∃ ds, VerifySetNftPriceTxInfo samplePrimitives sampleAccounts sampleAssets sampleNfts
        sampleSetNftPrice = Outcome.ret ds none ∧ ds.length = 3 := by
  refine ⟨by decide, _, rfl, rfl⟩

/-- What an accepting run of `VerifySetNftPriceTxInfo` has established, and the
records it returns. -/
theorem setNftPrice_accept_inv (prim : Primitives) (accountInfoMap : GoMap Account)
    (assetInfoMap : GoMap (GoMap AccountAsset)) (nftInfoMap : GoMap L2Nft)
    (txInfo : SetNftPriceTxInfo) (ds : List MempoolTxDetail)
    (h : VerifySetNftPriceTxInfo prim accountInfoMap assetInfoMap nftInfoMap txInfo =
      Outcome.ret ds none) :
    ∃ fromAccount gasAccount fromAssetGas gasAssetGas nftInfo assetGasBalance assetDeltaMap pk,
      accountInfoMap txInfo.AccountIndex = some fromAccount ∧
      accountInfoMap txInfo.GasAccountIndex = some gasAccount ∧
      index2 assetInfoMap txInfo.AccountIndex txInfo.GasFeeAssetId = some fromAssetGas ∧
      index2 assetInfoMap txInfo.GasAccountIndex txInfo.GasFeeAssetId = some gasAssetGas ∧
      nftInfoMap txInfo.AccountIndex ≠ none ∧
      nftInfoMap txInfo.NftIndex = some nftInfo ∧
      nftInfo.OwnerAccountIndex = txInfo.AccountIndex ∧
      nftInfo.NftIndex = txInfo.NftIndex ∧
      nftInfo.NftContentHash = txInfo.NftContentHash ∧
      0 ≤ txInfo.GasFeeAssetAmount ∧ 0 ≤ txInfo.AssetAmount ∧
      txInfo.Nonce = fromAccount.Nonce ∧
      SetString10 fromAssetGas.Balance = some assetGasBalance ∧
      txInfo.GasFeeAssetAmount ≤ assetGasBalance ∧
      prim.ParsePkStr fromAccount.PublicKey = Except.ok pk ∧
      prim.Verify pk txInfo.Sig (prim.ComputeSetNftPriceMsgHash txInfo) = Except.ok true ∧
      setNftPriceDeltaMap txInfo = some assetDeltaMap ∧
      ds =
        [ { AssetId := txInfo.GasFeeAssetId, AssetType := GeneralAssetType,
            AccountIndex := txInfo.AccountIndex, AccountName := fromAccount.AccountName,
            Balance := fromAssetGas.Balance,
            BalanceDelta :=
              bigString (index2 assetDeltaMap txInfo.AccountIndex txInfo.GasFeeAssetId) },
          { AssetId := txInfo.NftIndex, AssetType := NftAssetType,
            AccountIndex := txInfo.AccountIndex, AccountName := fromAccount.AccountName,
            Balance := prim.NftInfoString (oldNftInfo nftInfo),
            BalanceDelta := prim.NftInfoString (newNftInfo nftInfo txInfo) },
          { AssetId := txInfo.GasFeeAssetId, AssetType := GeneralAssetType,
            AccountIndex := txInfo.GasAccountIndex, AccountName := gasAccount.AccountName,
            Balance := gasAssetGas.Balance,
            BalanceDelta :=
              bigString (index2 assetDeltaMap txInfo.GasAccountIndex txInfo.GasFeeAssetId) } ] := by
  unfold VerifySetNftPriceTxInfo at h
  cases hp : setNftPriceParamsInvalid accountInfoMap assetInfoMap nftInfoMap txInfo with
  | none => simp [hp, deref] at h
  | some invalid =>
    cases invalid with
    | true => simp [hp, deref] at h
    | false =>
      simp only [hp, deref] at h
      unfold setNftPriceParamsInvalid at hp
      split at hp
      · simp at hp
      · rename_i hex
        simp only [Bool.or_eq_true, not_or, Option.isNone_iff_eq_none] at hex
        obtain ⟨⟨⟨⟨⟨⟨h1, h2⟩, -⟩, h4⟩, -⟩, h6⟩, h7⟩ := hex
        obtain ⟨fromAccount, hF⟩ := Option.ne_none_iff_exists'.1 h1
        obtain ⟨gasAccount, hG⟩ := Option.ne_none_iff_exists'.1 h2
        obtain ⟨fromAssetGas, hFG⟩ := Option.ne_none_iff_exists'.1 h4
        obtain ⟨gasAssetGas, hGG⟩ := Option.ne_none_iff_exists'.1 h6
        cases hN : nftInfoMap txInfo.NftIndex with
        | none => simp [hN] at hp
        | some nftInfo =>
          simp only [hN, Option.some.injEq, Bool.or_eq_false_iff, decide_eq_false_iff_not,
            not_not, not_lt] at hp
          obtain ⟨⟨⟨⟨p1, p2⟩, p3⟩, p4⟩, p5⟩ := hp
          simp only [hF, hG, hFG, hGG, hN] at h
          by_cases hn : txInfo.Nonce = fromAccount.Nonce
          · cases hm : setNftPriceDeltaMap txInfo with
            | none => simp [hn, hm] at h
            | some assetDeltaMap =>
              cases hb : SetString10 fromAssetGas.Balance with
              | none => simp [hn, hm, hb] at h
              | some assetGasBalance =>
                by_cases hlt : assetGasBalance < txInfo.GasFeeAssetAmount
                · simp [hn, hm, hb, hlt] at h
                · cases hk : prim.ParsePkStr fromAccount.PublicKey with
                  | error e => simp [hn, hm, hb, hlt, hk] at h
                  | ok pk =>
                    cases hv : prim.Verify pk txInfo.Sig
                        (prim.ComputeSetNftPriceMsgHash txInfo) with
                    | error e => simp [hn, hm, hb, hlt, hk, hv] at h
                    | ok isValid =>
                      cases isValid with
                      | false => simp [hn, hm, hb, hlt, hk, hv] at h
                      | true =>
                        simp [hn, hm, hb, hlt, hk, hv] at h
                        exact ⟨fromAccount, gasAccount, fromAssetGas, gasAssetGas, nftInfo,
                          assetGasBalance, assetDeltaMap, pk, hF, hG, hFG, hGG, h7, rfl, p1, p2,
                          p3, p4, p5, hn, hb, not_lt.1 hlt, hk, hv, rfl, h.symm⟩
          · simp [hn] at h

/-- C5: when `VerifySetNftPriceTxInfo` succeeds, its second record is the
non-fungible record of the sender at asset id `NftIndex`; its balance-before is the
encoding of the snapshot NFT at `txInfo.NftIndex` with every field unchanged, and its
new state is the encoding of that NFT with only `AssetId` and `AssetAmount` replaced
by `txInfo.AssetId` and the decimal string of `txInfo.AssetAmount`. -/
theorem setNftPrice_nft_record (prim : Primitives) (accountInfoMap : GoMap Account)
    (assetInfoMap : GoMap (GoMap AccountAsset)) (nftInfoMap : GoMap L2Nft)
    (txInfo : SetNftPriceTxInfo) (ds : List MempoolTxDetail)
    (hacc : VerifySetNftPriceTxInfo prim accountInfoMap assetInfoMap nftInfoMap txInfo =
      Outcome.ret ds none) :
    ∃ nftInfo r1 r2 r3,
      nftInfoMap txInfo.NftIndex = some nftInfo ∧
      ds = [r1, r2, r3] ∧
      r2.AssetId = txInfo.NftIndex ∧ r2.AssetType = NftAssetType ∧
      r2.AccountIndex = txInfo.AccountIndex ∧
      r2.Balance = prim.NftInfoString
        { NftIndex := nftInfo.NftIndex
          CreatorAccountIndex := nftInfo.CreatorAccountIndex
          OwnerAccountIndex := nftInfo.OwnerAccountIndex
          AssetId := nftInfo.AssetId
          AssetAmount := nftInfo.AssetAmount
          NftContentHash := nftInfo.NftContentHash
          NftL1TokenId := nftInfo.NftL1TokenId
          NftL1Address := nftInfo.NftL1Address } ∧
      r2.BalanceDelta = prim.NftInfoString
        { NftIndex := nftInfo.NftIndex
          CreatorAccountIndex := nftInfo.CreatorAccountIndex
          OwnerAccountIndex := nftInfo.OwnerAccountIndex
          AssetId := txInfo.AssetId
          AssetAmount := toString txInfo.AssetAmount
          NftContentHash := nftInfo.NftContentHash
          NftL1TokenId := nftInfo.NftL1TokenId
          NftL1Address := nftInfo.NftL1Address } ∧
      SetString10 (toString txInfo.AssetAmount) = some txInfo.AssetAmount := by
  obtain ⟨fromAccount, gasAccount, fromAssetGas, gasAssetGas, nftInfo, bal, m, pk, -, -, -, -,
    -, hN, -, -, -, -, -, -, -, -, -, -, -, hds⟩ :=
    setNftPrice_accept_inv prim accountInfoMap assetInfoMap nftInfoMap txInfo ds hacc
  exact ⟨nftInfo, _, _, _, hN, hds, rfl, rfl, rfl, rfl, rfl,
    SetString10_bigString txInfo.AssetAmount⟩

/-- The sample price-set (NFT 42 of account 5, new asset id 1, new price 1000) is
accepted; its NFT record keeps creator 3, owner 5, index 42, hash `H`, token id 77
and address `0xabc`. -/
theorem setNftPrice_nft_record_witness :
    VerifySetNftPriceTxInfo samplePrimitives sampleAccounts sampleAssets sampleNfts
        sampleSetNftPrice = Outcome.ret sampleSetNftPriceRecords none ∧
    sampleSetNftPriceRecords.map (fun d => (d.Balance, d.BalanceDelta)) =
      [("50", "-5"), ("42,3,5,0,0,H,77,0xabc", "42,3,5,1,1000,H,77,0xabc"), ("20", "5")] ∧
    ∃ nftInfo r1 r2 r3,
      sampleNfts sampleSetNftPrice.NftIndex = some nftInfo ∧
      sampleSetNftPriceRecords = [r1, r2, r3] ∧
      r2.AssetId = sampleSetNftPrice.NftIndex ∧ r2.AssetType = NftAssetType ∧
      r2.AccountIndex = sampleSetNftPrice.AccountIndex ∧
      r2.Balance = samplePrimitives.NftInfoString
        { NftIndex := nftInfo.NftIndex
          CreatorAccountIndex := nftInfo.CreatorAccountIndex
          OwnerAccountIndex := nftInfo.OwnerAccountIndex
          AssetId := nftInfo.AssetId
          AssetAmount := nftInfo.AssetAmount
          NftContentHash := nftInfo.NftContentHash
          NftL1TokenId := nftInfo.NftL1TokenId
          NftL1Address := nftInfo.NftL1Address } ∧
      r2.BalanceDelta = samplePrimitives.NftInfoString
        { NftIndex := nftInfo.NftIndex
          CreatorAccountIndex := nftInfo.CreatorAccountIndex
          OwnerAccountIndex := nftInfo.OwnerAccountIndex
          AssetId := sampleSetNftPrice.AssetId
          AssetAmount := toString sampleSetNftPrice.AssetAmount
          NftContentHash := nftInfo.NftContentHash
          NftL1TokenId := nftInfo.NftL1TokenId
          NftL1Address := nftInfo.NftL1Address } ∧
      SetString10 (toString sampleSetNftPrice.AssetAmount) =
        some sampleSetNftPrice.AssetAmount :=
  ⟨by decide, by decide,
    setNftPrice_nft_record samplePrimitives sampleAccounts sampleAssets sampleNfts
      sampleSetNftPrice sampleSetNftPriceRecords (by decide)⟩

/-- C6, as stated, fails: in the accepted withdraw of 30 of asset 2 with a fee of 5
of asset 2 (sender 5, gas account 9) the second and third records report `-35` and
`5`, which do not sum to zero. -/
theorem withdraw_fee_sum_counterexample :
    ∃ r1 r2 r3 d2 d3,
      VerifyWithdrawTxInfo samplePrimitives sampleAccounts sampleAssets sameAssetWithdraw =
        Outcome.ret [r1, r2, r3] none ∧
      sameAssetWithdraw.AssetId = sameAssetWithdraw.GasFeeAssetId ∧
      deltaOf r2 = some d2 ∧ deltaOf r3 = some d3 ∧ d2 = -35 ∧ d3 = 5 ∧ d2 + d3 ≠ 0 :=
  ⟨_, _, _, _, _, rfl, rfl, rfl, rfl, rfl, rfl, by decide⟩

/-- C6, amended: in every accepted withdraw the deltas of the second record (sender,
gas-fee asset) and of the third record (gas account, gas-fee asset) sum to zero
exactly when the withdrawn asset differs from the gas-fee asset or the withdrawn
amount is zero; with the same asset the sender's record carries the accumulated
delta of principal and fee. -/
theorem withdraw_fee_sum (prim : Primitives) (accountInfoMap : GoMap Account)
    (assetInfoMap : GoMap (GoMap AccountAsset)) (txInfo : WithdrawTxInfo)
    (ds : List MempoolTxDetail)
    (hacc : VerifyWithdrawTxInfo prim accountInfoMap assetInfoMap txInfo = Outcome.ret ds none) :
    ∃ r1 r2 r3 d2 d3,
      ds = [r1, r2, r3] ∧
      r2.AccountIndex = txInfo.FromAccountIndex ∧ r2.AssetId = txInfo.GasFeeAssetId ∧
      r3.AccountIndex = txInfo.GasAccountIndex ∧ r3.AssetId = txInfo.GasFeeAssetId ∧
      deltaOf r2 = some d2 ∧ deltaOf r3 = some d3 ∧
      (d2 + d3 = 0 ↔ (txInfo.AssetId ≠ txInfo.GasFeeAssetId ∨ txInfo.AssetAmount = 0)) := by
  obtain ⟨fromAccount, gasAccount, fromAssetA, fromAssetGas, gasAssetGas, m, pk, -, -, -,
    -, -, -, -, -, -, -, hm, hds⟩ :=
    withdraw_accept_inv prim accountInfoMap assetInfoMap txInfo ds hacc
  obtain ⟨m', hm', e1, e2, e3⟩ := withdrawDeltaMap_entries txInfo
  rw [hm] at hm'
  cases hm'
  rw [e1, e2, e3] at hds
  refine ⟨_, _, _, _, _, hds, rfl, rfl, rfl, rfl, SetString10_bigString _,
    SetString10_bigString _, ?_⟩
  by_cases h1 : txInfo.AssetId = txInfo.GasFeeAssetId <;>
    by_cases h2 : txInfo.FromAccountIndex = txInfo.GasAccountIndex <;>
    simp only [h1, h2, if_true, if_false, ne_eq, not_true_eq_false, not_false_eq_true,
      false_or, true_or, iff_true] <;>
    omega

/-- The sample withdraw pays its fee in another asset: `-5` and `5` sum to zero. -/
theorem withdraw_fee_sum_witness :
    VerifyWithdrawTxInfo samplePrimitives sampleAccounts sampleAssets sampleWithdraw =
      Outcome.ret sampleWithdrawRecords none ∧
    ∃ r1 r2 r3 d2 d3,
      sampleWithdrawRecords = [r1, r2, r3] ∧
      r2.AccountIndex = sampleWithdraw.FromAccountIndex ∧
      r2.AssetId = sampleWithdraw.GasFeeAssetId ∧
      r3.AccountIndex = sampleWithdraw.GasAccountIndex ∧
      r3.AssetId = sampleWithdraw.GasFeeAssetId ∧
      deltaOf r2 = some d2 ∧ deltaOf r3 = some d3 ∧
      (d2 + d3 = 0 ↔
        (sampleWithdraw.AssetId ≠ sampleWithdraw.GasFeeAssetId ∨
          sampleWithdraw.AssetAmount = 0)) :=
  ⟨by decide,
    withdraw_fee_sum samplePrimitives sampleAccounts sampleAssets sampleWithdraw
      sampleWithdrawRecords (by decide)⟩

/-- C7, as stated, fails: in the accepted withdraw of 100 of asset 1 with a fee of 5
of asset 1 paid by account 5 to itself, every record reports `-100`, not
`-(100 + 5)`. -/
theorem withdraw_self_pay_counterexample :
    ∃ ds,
      VerifyWithdrawTxInfo samplePrimitives sampleAccounts sampleAssets selfPayWithdraw =
        Outcome.ret ds none ∧
      selfPayWithdraw.FromAccountIndex = selfPayWithdraw.GasAccountIndex ∧
      selfPayWithdraw.AssetId = selfPayWithdraw.GasFeeAssetId ∧
      ds.map deltaOf = [some (-100), some (-100), some (-100)] ∧
      -(selfPayWithdraw.AssetAmount + selfPayWithdraw.GasFeeAssetAmount) = -105 :=
  ⟨_, rfl, rfl, rfl, rfl, rfl⟩

/-- C7, amended: in every accepted withdraw whose sender is the gas account and
whose asset is the gas-fee asset, the delta reported for that (account, asset), by
each of the three records, is `-AssetAmount`: the fee debited and the fee credited
cancel. -/
theorem withdraw_self_pay (prim : Primitives) (accountInfoMap : GoMap Account)
    (assetInfoMap : GoMap (GoMap AccountAsset)) (txInfo : WithdrawTxInfo)
    (ds : List MempoolTxDetail)
    (hacc : VerifyWithdrawTxInfo prim accountInfoMap assetInfoMap txInfo = Outcome.ret ds none)
    (hsender : txInfo.FromAccountIndex = txInfo.GasAccountIndex)
    (hasset : txInfo.AssetId = txInfo.GasFeeAssetId) :
    ds.map (fun d => (d.AccountIndex, d.AssetId, deltaOf d)) =
      [ (txInfo.FromAccountIndex, txInfo.AssetId, some (-txInfo.AssetAmount)),
        (txInfo.FromAccountIndex, txInfo.AssetId, some (-txInfo.AssetAmount)),
        (txInfo.FromAccountIndex, txInfo.AssetId, some (-txInfo.AssetAmount)) ] := by
  obtain ⟨fromAccount, gasAccount, fromAssetA, fromAssetGas, gasAssetGas, m, pk, -, -, -,
    -, -, -, -, -, -, -, hm, hds⟩ :=
    withdraw_accept_inv prim accountInfoMap assetInfoMap txInfo ds hacc
  obtain ⟨m', hm', e1, e2, e3⟩ := withdrawDeltaMap_entries txInfo
  rw [hm] at hm'
  cases hm'
  rw [e1, e2, e3] at hds
  simp only [hsender, hasset, if_true] at hds
  have hcancel : -txInfo.AssetAmount - txInfo.GasFeeAssetAmount + txInfo.GasFeeAssetAmount =
      -txInfo.AssetAmount := by omega
  rw [hcancel] at hds
  rw [hds]
  simp only [List.map, deltaOf, SetString10_bigString, hsender, hasset]

/-- The self-paying sample withdraw reports `-100` three times. -/
theorem withdraw_self_pay_witness :
    VerifyWithdrawTxInfo samplePrimitives sampleAccounts sampleAssets selfPayWithdraw =
      Outcome.ret selfPayWithdrawRecords none ∧
    selfPayWithdraw.FromAccountIndex = selfPayWithdraw.GasAccountIndex ∧
    selfPayWithdraw.AssetId = selfPayWithdraw.GasFeeAssetId ∧
    selfPayWithdrawRecords.map (fun d => (d.AccountIndex, d.AssetId, deltaOf d)) =
      [ (selfPayWithdraw.FromAccountIndex, selfPayWithdraw.AssetId,
          some (-selfPayWithdraw.AssetAmount)),
        (selfPayWithdraw.FromAccountIndex, selfPayWithdraw.AssetId,
          some (-selfPayWithdraw.AssetAmount)),
        (selfPayWithdraw.FromAccountIndex, selfPayWithdraw.AssetId,
          some (-selfPayWithdraw.AssetAmount)) ] :=
  ⟨by decide, by decide, by decide,
    withdraw_self_pay samplePrimitives sampleAccounts sampleAssets selfPayWithdraw
      selfPayWithdrawRecords (by decide) (by decide) (by decide)⟩

/-- C8: in both verifiers, an input that passes the parameter check and whose nonce
differs from the sender's snapshot nonce gets the invalid-nonce error and no
records, whatever the balances and the signature are. -/
theorem nonce_mismatch_rejected (prim : Primitives) (accountInfoMap : GoMap Account)
    (assetInfoMap : GoMap (GoMap AccountAsset)) (nftInfoMap : GoMap L2Nft)
    (wTx : WithdrawTxInfo) (nTx : SetNftPriceTxInfo) (wSender nSender : Account)
    (hwParams : withdrawParamsInvalid accountInfoMap assetInfoMap wTx = false)
    (hwSender : accountInfoMap wTx.FromAccountIndex = some wSender)
    (hwNonce : wTx.Nonce ≠ wSender.Nonce)
    (hnParams : setNftPriceParamsInvalid accountInfoMap assetInfoMap nftInfoMap nTx = some false)
    (hnSender : accountInfoMap nTx.AccountIndex = some nSender)
    (hnNonce : nTx.Nonce ≠ nSender.Nonce) :
    VerifyWithdrawTxInfo prim accountInfoMap assetInfoMap wTx =
        Outcome.ret [] (some (GoError.errorsNew "[VerifyWithdrawTxInfo] invalid nonce")) ∧
    VerifySetNftPriceTxInfo prim accountInfoMap assetInfoMap nftInfoMap nTx =
        Outcome.ret [] (some (GoError.errorsNew "[VerifySetNftPriceTxInfo] invalid nonce")) := by
  constructor
  · simp [VerifyWithdrawTxInfo, hwParams, hwSender, deref, hwNonce]
  · simp [VerifySetNftPriceTxInfo, hnParams, hnSender, deref, hnNonce]

/-- The sample payloads with nonce 8 (withdraw) and nonce 6 (price-set) against the
sender's nonce 7, the withdraw moreover unsigned. -/
theorem nonce_mismatch_rejected_witness :
    withdrawParamsInvalid sampleAccounts sampleAssets
        { sampleWithdraw with Nonce := 8, Sig := [] } = false ∧
    sampleAccounts 5 = some { AccountName := "alice.legend", PublicKey := "A", Nonce := 7 } ∧
    setNftPriceParamsInvalid sampleAccounts sampleAssets sampleNfts
        { sampleSetNftPrice with Nonce := 6 } = some false ∧
    VerifyWithdrawTxInfo samplePrimitives sampleAccounts sampleAssets
        { sampleWithdraw with Nonce := 8, Sig := [] } =
      Outcome.ret [] (some (GoError.errorsNew "[VerifyWithdrawTxInfo] invalid nonce")) ∧
    VerifySetNftPriceTxInfo samplePrimitives sampleAccounts sampleAssets sampleNfts
        { sampleSetNftPrice with Nonce := 6 } =
      Outcome.ret [] (some (GoError.errorsNew "[VerifySetNftPriceTxInfo] invalid nonce")) :=
  ⟨by decide, by decide, by decide,
    nonce_mismatch_rejected samplePrimitives sampleAccounts sampleAssets sampleNfts
      { sampleWithdraw with Nonce := 8, Sig := [] } { sampleSetNftPrice with Nonce := 6 }
      { AccountName := "alice.legend", PublicKey := "A", Nonce := 7 }
      { AccountName := "alice.legend", PublicKey := "A", Nonce := 7 }
      (by decide) (by decide) (by decide) (by decide) (by decide) (by decide)⟩

/-- C9: in both verifiers a negative `AssetAmount` or `GasFeeAssetAmount` gets the
invalid-params error and no records, whatever the nonce and the signature are; the
price-set verifier needs the NFT at `txInfo.NftIndex` to exist for that, the withdraw
verifier needs nothing more. -/
theorem negative_amount_rejected (prim : Primitives) (accountInfoMap : GoMap Account)
    (assetInfoMap : GoMap (GoMap AccountAsset)) (nftInfoMap : GoMap L2Nft)
    (wTx : WithdrawTxInfo) (nTx : SetNftPriceTxInfo)
    (hwNeg : wTx.AssetAmount < 0 ∨ wTx.GasFeeAssetAmount < 0)
    (hnNft : nftInfoMap nTx.NftIndex ≠ none)
    (hnNeg : nTx.AssetAmount < 0 ∨ nTx.GasFeeAssetAmount < 0) :
    VerifyWithdrawTxInfo prim accountInfoMap assetInfoMap wTx =
        Outcome.ret [] (some (GoError.errorsNew "[VerifyTransferNftTxInfo] invalid params")) ∧
    VerifySetNftPriceTxInfo prim accountInfoMap assetInfoMap nftInfoMap nTx =
        Outcome.ret [] (some (GoError.errorsNew "[VerifySetNftPriceTxInfo] invalid params")) := by
  constructor
  · have hp : withdrawParamsInvalid accountInfoMap assetInfoMap wTx = true := by
      unfold withdrawParamsInvalid
      rcases hwNeg with h | h
      · simp [h]
      · simp [h]
    simp [VerifyWithdrawTxInfo, hp]
  · obtain ⟨n, hn⟩ := Option.ne_none_iff_exists'.1 hnNft
    have hp : setNftPriceParamsInvalid accountInfoMap assetInfoMap nftInfoMap nTx =
        some true := by
      unfold setNftPriceParamsInvalid
      split
      · rfl
      · rw [hn]
        rcases hnNeg with h | h
        · simp [h]
        · simp [h]
    simp [VerifySetNftPriceTxInfo, hp, deref]

/-- The sample payloads with amount -1 (withdraw) and fee -1 (price-set), both with a
wrong nonce and no signature. -/
theorem negative_amount_rejected_witness :
    ((-1 : Int) < 0 ∨ (5 : Int) < 0) ∧ sampleNfts 42 ≠ none ∧
    ((1000 : Int) < 0 ∨ (-1 : Int) < 0) ∧
    VerifyWithdrawTxInfo samplePrimitives sampleAccounts sampleAssets
        { sampleWithdraw with AssetAmount := -1, Nonce := 99, Sig := [] } =
      Outcome.ret [] (some (GoError.errorsNew "[VerifyTransferNftTxInfo] invalid params")) ∧
    VerifySetNftPriceTxInfo samplePrimitives sampleAccounts sampleAssets sampleNfts
        { sampleSetNftPrice with GasFeeAssetAmount := -1, Nonce := 99, Sig := [] } =
      Outcome.ret [] (some (GoError.errorsNew "[VerifySetNftPriceTxInfo] invalid params")) :=
  ⟨by decide, by decide, by decide,
    negative_amount_rejected samplePrimitives sampleAccounts sampleAssets sampleNfts
      { sampleWithdraw with AssetAmount := -1, Nonce := 99, Sig := [] }
      { sampleSetNftPrice with GasFeeAssetAmount := -1, Nonce := 99, Sig := [] }
      (by decide) (by decide) (by decide)⟩

/-- C10: `VerifyWithdrawTxInfo` returns the invalid-params error and no records, and
does not panic, whenever the sender account, the gas account, the sender's entry
for `AssetId`, the sender's entry for `GasFeeAssetId` or the gas account's entry for
`GasFeeAssetId` is missing from the snapshot, a missing per-account asset map
included. -/
theorem withdraw_missing_entity_rejected (prim : Primitives) (accountInfoMap : GoMap Account)
    (assetInfoMap : GoMap (GoMap AccountAsset)) (txInfo : WithdrawTxInfo)
    (hmissing : accountInfoMap txInfo.FromAccountIndex = none ∨
      accountInfoMap txInfo.GasAccountIndex = none ∨
      assetInfoMap txInfo.FromAccountIndex = none ∨
      index2 assetInfoMap txInfo.FromAccountIndex txInfo.AssetId = none ∨
      index2 assetInfoMap txInfo.FromAccountIndex txInfo.GasFeeAssetId = none ∨
      assetInfoMap txInfo.GasAccountIndex = none ∨
      index2 assetInfoMap txInfo.GasAccountIndex txInfo.GasFeeAssetId = none) :
    VerifyWithdrawTxInfo prim accountInfoMap assetInfoMap txInfo =
      Outcome.ret [] (some (GoError.errorsNew "[VerifyTransferNftTxInfo] invalid params")) := by
  have hp : withdrawParamsInvalid accountInfoMap assetInfoMap txInfo = true := by
    unfold withdrawParamsInvalid
    rcases hmissing with h | h | h | h | h | h | h <;> simp [h]
  simp [VerifyWithdrawTxInfo, hp]

/-- The sample withdraw with gas account 6, which has neither an account nor an asset
map in the snapshot. -/
theorem withdraw_missing_entity_rejected_witness :
    (sampleAccounts 5 = none ∨ sampleAccounts 6 = none ∨ sampleAssets 5 = none ∨
      index2 sampleAssets 5 1 = none ∨ index2 sampleAssets 5 2 = none ∨
      sampleAssets 6 = none ∨ index2 sampleAssets 6 2 = none) ∧
    VerifyWithdrawTxInfo samplePrimitives sampleAccounts sampleAssets
        { sampleWithdraw with GasAccountIndex := 6 } =
      Outcome.ret [] (some (GoError.errorsNew "[VerifyTransferNftTxInfo] invalid params")) :=
  ⟨Or.inr (Or.inl (by decide)),
    withdraw_missing_entity_rejected samplePrimitives sampleAccounts sampleAssets
      { sampleWithdraw with GasAccountIndex := 6 } (Or.inr (Or.inl (by decide)))⟩

/-- C11: when the snapshot NFT at `txInfo.NftIndex` exists and its owner differs from
`txInfo.AccountIndex` or its content hash differs from `txInfo.NftContentHash`,
`VerifySetNftPriceTxInfo` returns the invalid-params error and no records, whatever
the other fields and the signature are. -/
theorem setNftPrice_owner_or_hash_mismatch_rejected (prim : Primitives)
    (accountInfoMap : GoMap Account) (assetInfoMap : GoMap (GoMap AccountAsset))
    (nftInfoMap : GoMap L2Nft) (txInfo : SetNftPriceTxInfo) (nftInfo : L2Nft)
    (hnft : nftInfoMap txInfo.NftIndex = some nftInfo)
    (hmismatch : nftInfo.OwnerAccountIndex ≠ txInfo.AccountIndex ∨
      nftInfo.NftContentHash ≠ txInfo.NftContentHash) :
    VerifySetNftPriceTxInfo prim accountInfoMap assetInfoMap nftInfoMap txInfo =
      Outcome.ret [] (some (GoError.errorsNew "[VerifySetNftPriceTxInfo] invalid params")) := by
  have hp : setNftPriceParamsInvalid accountInfoMap assetInfoMap nftInfoMap txInfo =
      some true := by
    unfold setNftPriceParamsInvalid
    split
    · rfl
    · rw [hnft]
      rcases hmismatch with h | h
      · simp [h]
      · simp [h]
  simp [VerifySetNftPriceTxInfo, hp, deref]

/-- The sample price-set claiming content hash `X` for NFT 42, whose snapshot hash is
`H`; everything else, the signature included, is as in the accepted sample. -/
theorem setNftPrice_owner_or_hash_mismatch_rejected_witness :
    sampleNfts 42 =
      some { NftIndex := 42, CreatorAccountIndex := 3, OwnerAccountIndex := 5, AssetId := 0,
             AssetAmount := "0", NftContentHash := "H", NftL1TokenId := "77",
             NftL1Address := "0xabc" } ∧
    ((5 : Int) ≠ 5 ∨ "H" ≠ "X") ∧
    VerifySetNftPriceTxInfo samplePrimitives sampleAccounts sampleAssets sampleNfts
        { sampleSetNftPrice with NftContentHash := "X" } =
      Outcome.ret [] (some (GoError.errorsNew "[VerifySetNftPriceTxInfo] invalid params")) :=
  ⟨by decide, Or.inr (by decide),
    setNftPrice_owner_or_hash_mismatch_rejected samplePrimitives sampleAccounts sampleAssets
      sampleNfts { sampleSetNftPrice with NftContentHash := "X" }
      { NftIndex := 42, CreatorAccountIndex := 3, OwnerAccountIndex := 5, AssetId := 0,
        AssetAmount := "0", NftContentHash := "H", NftL1TokenId := "77",
        NftL1Address := "0xabc" }
      (by decide) (Or.inr (by decide))⟩

/-- The two entries of the price-set delta map the records are read from. -/
theorem setNftPriceDeltaMap_entries (t : SetNftPriceTxInfo) :
    ∃ m, setNftPriceDeltaMap t = some m ∧
      index2 m t.AccountIndex t.GasFeeAssetId =
        some (if t.AccountIndex = t.GasAccountIndex then
          -t.GasFeeAssetAmount + t.GasFeeAssetAmount else -t.GasFeeAssetAmount) ∧
      index2 m t.GasAccountIndex t.GasFeeAssetId =
        some (if t.AccountIndex = t.GasAccountIndex then
          -t.GasFeeAssetAmount + t.GasFeeAssetAmount else t.GasFeeAssetAmount) := by
  by_cases h2 : t.AccountIndex = t.GasAccountIndex
  · simp [setNftPriceDeltaMap, mapSet, set2, index2, emptyMap, ffmath.Neg, ffmath.Add, h2]
  · have h2' : ¬ t.GasAccountIndex = t.AccountIndex := fun h => h2 h.symm
    simp [setNftPriceDeltaMap, mapSet, set2, index2, emptyMap, ffmath.Neg, ffmath.Add, h2, h2']

/-- What a passed parameter check of `VerifySetNftPriceTxInfo` has established. -/
theorem setNftPriceParams_passed (accountInfoMap : GoMap Account)
    (assetInfoMap : GoMap (GoMap AccountAsset)) (nftInfoMap : GoMap L2Nft)
    (txInfo : SetNftPriceTxInfo)
    (hp : setNftPriceParamsInvalid accountInfoMap assetInfoMap nftInfoMap txInfo = some false) :
    ∃ fromAccount gasAccount fromAssetGas gasAssetGas nftInfo,
      accountInfoMap txInfo.AccountIndex = some fromAccount ∧
      accountInfoMap txInfo.GasAccountIndex = some gasAccount ∧
      index2 assetInfoMap txInfo.AccountIndex txInfo.GasFeeAssetId = some fromAssetGas ∧
      index2 assetInfoMap txInfo.GasAccountIndex txInfo.GasFeeAssetId = some gasAssetGas ∧
      nftInfoMap txInfo.AccountIndex ≠ none ∧
      nftInfoMap txInfo.NftIndex = some nftInfo ∧
      nftInfo.OwnerAccountIndex = txInfo.AccountIndex ∧
      nftInfo.NftIndex = txInfo.NftIndex ∧
      nftInfo.NftContentHash = txInfo.NftContentHash ∧
      0 ≤ txInfo.GasFeeAssetAmount ∧ 0 ≤ txInfo.AssetAmount := by
  unfold setNftPriceParamsInvalid at hp
  split at hp
  · simp at hp
  · rename_i hex
    simp only [Bool.or_eq_true, not_or, Option.isNone_iff_eq_none] at hex
    obtain ⟨⟨⟨⟨⟨⟨h1, h2⟩, -⟩, h4⟩, -⟩, h6⟩, h7⟩ := hex
    obtain ⟨fromAccount, hF⟩ := Option.ne_none_iff_exists'.1 h1
    obtain ⟨gasAccount, hG⟩ := Option.ne_none_iff_exists'.1 h2
    obtain ⟨fromAssetGas, hFG⟩ := Option.ne_none_iff_exists'.1 h4
    obtain ⟨gasAssetGas, hGG⟩ := Option.ne_none_iff_exists'.1 h6
    cases hN : nftInfoMap txInfo.NftIndex with
    | none => simp [hN] at hp
    | some nftInfo =>
      simp only [hN, Option.some.injEq, Bool.or_eq_false_iff, decide_eq_false_iff_not,
        not_not, not_lt] at hp
      obtain ⟨⟨⟨⟨p1, p2⟩, p3⟩, p4⟩, p5⟩ := hp
      exact ⟨fromAccount, gasAccount, fromAssetGas, gasAssetGas, nftInfo, hF, hG, hFG, hGG,
        h7, rfl, p1, p2, p3, p4, p5⟩

/-- What `VerifySetNftPriceTxInfo` does once the parameter and nonce checks are
passed: the balance check, then the signature stage. -/
theorem setNftPrice_after_nonce (prim : Primitives) (accountInfoMap : GoMap Account)
    (assetInfoMap : GoMap (GoMap AccountAsset)) (nftInfoMap : GoMap L2Nft)
    (txInfo : SetNftPriceTxInfo) (fromAccount : Account) (fromAssetGas : AccountAsset)
    (hparams : setNftPriceParamsInvalid accountInfoMap assetInfoMap nftInfoMap txInfo =
      some false)
    (hsender : accountInfoMap txInfo.AccountIndex = some fromAccount)
    (hnonce : txInfo.Nonce = fromAccount.Nonce)
    (hasset : index2 assetInfoMap txInfo.AccountIndex txInfo.GasFeeAssetId = some fromAssetGas) :
    (SetString10 fromAssetGas.Balance = none →
      VerifySetNftPriceTxInfo prim accountInfoMap assetInfoMap nftInfoMap txInfo =
        Outcome.ret []
          (some (GoError.errorsNew "[VerifyMintNftTxInfo] unable to parse balance"))) ∧
    (∀ b, SetString10 fromAssetGas.Balance = some b → b < txInfo.GasFeeAssetAmount →
      VerifySetNftPriceTxInfo prim accountInfoMap assetInfoMap nftInfoMap txInfo =
        Outcome.ret []
          (some (GoError.errorsNew
            "[VerifyMintNftTxInfo] you don't have enough balance of asset Gas"))) ∧
    (∀ b, SetString10 fromAssetGas.Balance = some b → txInfo.GasFeeAssetAmount ≤ b →
      (∀ e, prim.ParsePkStr fromAccount.PublicKey = Except.error e →
        VerifySetNftPriceTxInfo prim accountInfoMap assetInfoMap nftInfoMap txInfo =
          Outcome.ret [] (some (GoError.external e))) ∧
      (∀ pk, prim.ParsePkStr fromAccount.PublicKey = Except.ok pk →
        (∀ e, prim.Verify pk txInfo.Sig (prim.ComputeSetNftPriceMsgHash txInfo) =
            Except.error e →
          VerifySetNftPriceTxInfo prim accountInfoMap assetInfoMap nftInfoMap txInfo =
            Outcome.ret [] (some (GoError.external e))) ∧
        (prim.Verify pk txInfo.Sig (prim.ComputeSetNftPriceMsgHash txInfo) =
            Except.ok false →
          VerifySetNftPriceTxInfo prim accountInfoMap assetInfoMap nftInfoMap txInfo =
            Outcome.ret []
              (some (GoError.errorsNew "[VerifySetNftPriceTxInfo] invalid signature"))) ∧
        (prim.Verify pk txInfo.Sig (prim.ComputeSetNftPriceMsgHash txInfo) =
            Except.ok true →
          ∃ r1 r2 r3,
            VerifySetNftPriceTxInfo prim accountInfoMap assetInfoMap nftInfoMap txInfo =
              Outcome.ret [r1, r2, r3] none))) := by
  obtain ⟨fromAccount', gasAccount, fromAssetGas', gasAssetGas, nftInfo, hF, hG, hFG, hGG, -,
    hN, -, -, -, -, -⟩ :=
    setNftPriceParams_passed accountInfoMap assetInfoMap nftInfoMap txInfo hparams
  obtain ⟨m, hm, -, -⟩ := setNftPriceDeltaMap_entries txInfo
  refine ⟨?_, ?_, ?_⟩
  · intro hb
    simp [VerifySetNftPriceTxInfo, hparams, hsender, hnonce, hN, hm, hasset, hb, deref]
  · intro b hb hlt
    simp [VerifySetNftPriceTxInfo, hparams, hsender, hnonce, hN, hm, hasset, hb, hlt, deref]
  · intro b hb hle
    have hlt : ¬ b < txInfo.GasFeeAssetAmount := not_lt.2 hle
    refine ⟨?_, ?_⟩
    · intro e he
      simp [VerifySetNftPriceTxInfo, hparams, hsender, hnonce, hN, hm, hasset, hb, hlt, he,
        deref]
    · intro pk hk
      refine ⟨?_, ?_, ?_⟩
      · intro e he
        simp [VerifySetNftPriceTxInfo, hparams, hsender, hnonce, hN, hm, hasset, hb, hlt, hk,
          he, deref]
      · intro hv
        simp [VerifySetNftPriceTxInfo, hparams, hsender, hnonce, hN, hm, hasset, hb, hlt, hk,
          hv, deref]
      · intro hv
        simp only [VerifySetNftPriceTxInfo, hparams, hsender, hnonce, hN, hm, hasset, hb, hlt,
          hk, hv, hG, hGG, deref, ne_eq, not_true_eq_false, if_false, Bool.false_eq_true,
          Bool.not_true]
        exact ⟨_, _, _, rfl⟩

/-- C12: once the parameter and nonce checks of `VerifySetNftPriceTxInfo` are passed,
a sender gas balance that is not a decimal integer, or is smaller than
`GasFeeAssetAmount`, gives an error and no records whatever the signature is; a
balance equal to the fee gets neither of the two balance errors, and with a valid
signature the three records are returned. -/
theorem setNftPrice_gas_balance_check (prim : Primitives) (accountInfoMap : GoMap Account)
    (assetInfoMap : GoMap (GoMap AccountAsset)) (nftInfoMap : GoMap L2Nft)
    (txInfo : SetNftPriceTxInfo) (fromAccount : Account) (fromAssetGas : AccountAsset)
    (hparams : setNftPriceParamsInvalid accountInfoMap assetInfoMap nftInfoMap txInfo =
      some false)
    (hsender : accountInfoMap txInfo.AccountIndex = some fromAccount)
    (hnonce : txInfo.Nonce = fromAccount.Nonce)
    (hasset : index2 assetInfoMap txInfo.AccountIndex txInfo.GasFeeAssetId = some fromAssetGas) :
    (SetString10 fromAssetGas.Balance = none →
      VerifySetNftPriceTxInfo prim accountInfoMap assetInfoMap nftInfoMap txInfo =
        Outcome.ret []
          (some (GoError.errorsNew "[VerifyMintNftTxInfo] unable to parse balance"))) ∧
    (∀ b, SetString10 fromAssetGas.Balance = some b → b < txInfo.GasFeeAssetAmount →
      VerifySetNftPriceTxInfo prim accountInfoMap assetInfoMap nftInfoMap txInfo =
        Outcome.ret []
          (some (GoError.errorsNew
            "[VerifyMintNftTxInfo] you don't have enough balance of asset Gas"))) ∧
    (SetString10 fromAssetGas.Balance = some txInfo.GasFeeAssetAmount →
      VerifySetNftPriceTxInfo prim accountInfoMap assetInfoMap nftInfoMap txInfo ≠
        Outcome.ret []
          (some (GoError.errorsNew "[VerifyMintNftTxInfo] unable to parse balance")) ∧
      VerifySetNftPriceTxInfo prim accountInfoMap assetInfoMap nftInfoMap txInfo ≠
        Outcome.ret []
          (some (GoError.errorsNew
            "[VerifyMintNftTxInfo] you don't have enough balance of asset Gas")) ∧
      (∀ pk, prim.ParsePkStr fromAccount.PublicKey = Except.ok pk →
        prim.Verify pk txInfo.Sig (prim.ComputeSetNftPriceMsgHash txInfo) = Except.ok true →
        ∃ r1 r2 r3,
          VerifySetNftPriceTxInfo prim accountInfoMap assetInfoMap nftInfoMap txInfo =
            Outcome.ret [r1, r2, r3] none)) := by
  obtain ⟨hparse, hshort, hrest⟩ :=
    setNftPrice_after_nonce prim accountInfoMap assetInfoMap nftInfoMap txInfo fromAccount
      fromAssetGas hparams hsender hnonce hasset
  refine ⟨hparse, hshort, ?_⟩
  intro hb
  obtain ⟨hkey, hsig⟩ := hrest txInfo.GasFeeAssetAmount hb (le_refl _)
  have hne : ∀ msg : String, msg = "[VerifyMintNftTxInfo] unable to parse balance" ∨
      msg = "[VerifyMintNftTxInfo] you don't have enough balance of asset Gas" →
      VerifySetNftPriceTxInfo prim accountInfoMap assetInfoMap nftInfoMap txInfo ≠
        Outcome.ret [] (some (GoError.errorsNew msg)) := by
    intro msg hmsg
    cases hk : prim.ParsePkStr fromAccount.PublicKey with
    | error e => rw [hkey e hk]; simp
    | ok pk =>
      obtain ⟨herr, hfalse, htrue⟩ := hsig pk hk
      cases hv : prim.Verify pk txInfo.Sig (prim.ComputeSetNftPriceMsgHash txInfo) with
      | error e => rw [herr e hv]; simp
      | ok isValid =>
        cases isValid with
        | false =>
          rw [hfalse hv]
          rcases hmsg with h | h <;> (rw [h]; decide)
        | true =>
          obtain ⟨r1, r2, r3, hr⟩ := htrue hv
          rw [hr]; simp
  refine ⟨hne _ (Or.inl rfl), hne _ (Or.inr rfl), ?_⟩
  intro pk hk hv
  exact (hsig pk hk).2.2 hv

/-- Against the sender's gas balance `50`: a fee of 51 is refused whatever the
signature is, and a signed fee of exactly 50 is accepted. -/
theorem setNftPrice_gas_balance_check_witness :
    setNftPriceParamsInvalid sampleAccounts sampleAssets sampleNfts
        { sampleSetNftPrice with GasFeeAssetAmount := 51, Sig := [] } = some false ∧
    index2 sampleAssets 5 2 = some { Balance := "50" } ∧
    SetString10 "50" = some 50 ∧
    VerifySetNftPriceTxInfo samplePrimitives sampleAccounts sampleAssets sampleNfts
        { sampleSetNftPrice with GasFeeAssetAmount := 51, Sig := [] } =
      Outcome.ret []
        (some (GoError.errorsNew
          "[VerifyMintNftTxInfo] you don't have enough balance of asset Gas")) ∧
    ∃ r1 r2 r3,
      VerifySetNftPriceTxInfo samplePrimitives sampleAccounts sampleAssets sampleNfts
          { sampleSetNftPrice with GasFeeAssetAmount := 50,
                                   Sig := [65, 5, 42, 1, 1000, 9, 2, 50, 7] } =
        Outcome.ret [r1, r2, r3] none :=
  ⟨by decide, by decide, by decide,
    (setNftPrice_gas_balance_check samplePrimitives sampleAccounts sampleAssets sampleNfts
      { sampleSetNftPrice with GasFeeAssetAmount := 51, Sig := [] }
      { AccountName := "alice.legend", PublicKey := "A", Nonce := 7 } { Balance := "50" }
      (by decide) (by decide) (by decide) (by decide)).2.1 50 (by decide) (by decide),
    ((setNftPrice_gas_balance_check samplePrimitives sampleAccounts sampleAssets sampleNfts
      { sampleSetNftPrice with GasFeeAssetAmount := 50,
                               Sig := [65, 5, 42, 1, 1000, 9, 2, 50, 7] }
      { AccountName := "alice.legend", PublicKey := "A", Nonce := 7 } { Balance := "50" }
      (by decide) (by decide) (by decide) (by decide)).2.2 (by decide)).2.2 [65] rfl rfl⟩

/-- What a passed parameter check of `VerifyWithdrawTxInfo` has established. -/
theorem withdrawParams_passed (accountInfoMap : GoMap Account)
    (assetInfoMap : GoMap (GoMap AccountAsset)) (txInfo : WithdrawTxInfo)
    (hp : withdrawParamsInvalid accountInfoMap assetInfoMap txInfo = false) :
    ∃ fromAccount gasAccount fromAssetA fromAssetGas gasAssetGas,
      accountInfoMap txInfo.FromAccountIndex = some fromAccount ∧
      accountInfoMap txInfo.GasAccountIndex = some gasAccount ∧
      index2 assetInfoMap txInfo.FromAccountIndex txInfo.AssetId = some fromAssetA ∧
      index2 assetInfoMap txInfo.FromAccountIndex txInfo.GasFeeAssetId = some fromAssetGas ∧
      index2 assetInfoMap txInfo.GasAccountIndex txInfo.GasFeeAssetId = some gasAssetGas ∧
      0 ≤ txInfo.AssetAmount ∧ 0 ≤ txInfo.GasFeeAssetAmount := by
  have hp' : ¬ withdrawParamsInvalid accountInfoMap assetInfoMap txInfo = true := by
    rw [hp]; decide
  simp only [withdrawParamsInvalid, Bool.or_eq_true, not_or, Option.isNone_iff_eq_none,
    decide_eq_true_eq, not_lt] at hp'
  obtain ⟨⟨⟨⟨⟨⟨⟨⟨h1, h2⟩, -⟩, h4⟩, h5⟩, -⟩, h7⟩, h8⟩, h9⟩ := hp'
  obtain ⟨fromAccount, hF⟩ := Option.ne_none_iff_exists'.1 h1
  obtain ⟨gasAccount, hG⟩ := Option.ne_none_iff_exists'.1 h2
  obtain ⟨fromAssetA, hFA⟩ := Option.ne_none_iff_exists'.1 h4
  obtain ⟨fromAssetGas, hFG⟩ := Option.ne_none_iff_exists'.1 h5
  obtain ⟨gasAssetGas, hGG⟩ := Option.ne_none_iff_exists'.1 h7
  exact ⟨fromAccount, gasAccount, fromAssetA, fromAssetGas, gasAssetGas, hF, hG, hFA, hFG, hGG,
    h8, h9⟩

/-- What `VerifyWithdrawTxInfo` does once the parameter and nonce checks are passed:
the signature stage alone decides. -/
theorem withdraw_after_nonce (prim : Primitives) (accountInfoMap : GoMap Account)
    (assetInfoMap : GoMap (GoMap AccountAsset)) (txInfo : WithdrawTxInfo)
    (fromAccount : Account)
    (hparams : withdrawParamsInvalid accountInfoMap assetInfoMap txInfo = false)
    (hsender : accountInfoMap txInfo.FromAccountIndex = some fromAccount)
    (hnonce : txInfo.Nonce = fromAccount.Nonce) :
    (∀ e, prim.ParsePkStr fromAccount.PublicKey = Except.error e →
      VerifyWithdrawTxInfo prim accountInfoMap assetInfoMap txInfo =
        Outcome.ret [] (some (GoError.external e))) ∧
    (∀ pk, prim.ParsePkStr fromAccount.PublicKey = Except.ok pk →
      (∀ e, prim.Verify pk txInfo.Sig (prim.ComputeWithdrawMsgHash txInfo) = Except.error e →
        VerifyWithdrawTxInfo prim accountInfoMap assetInfoMap txInfo =
          Outcome.ret [] (some (GoError.external e))) ∧
      (prim.Verify pk txInfo.Sig (prim.ComputeWithdrawMsgHash txInfo) = Except.ok false →
        VerifyWithdrawTxInfo prim accountInfoMap assetInfoMap txInfo =
          Outcome.ret [] (some (GoError.errorsNew "[VerifyWithdrawTxInfo] invalid signature"))) ∧
      (prim.Verify pk txInfo.Sig (prim.ComputeWithdrawMsgHash txInfo) = Except.ok true →
        ∃ r1 r2 r3,
          VerifyWithdrawTxInfo prim accountInfoMap assetInfoMap txInfo =
            Outcome.ret [r1, r2, r3] none)) := by
  obtain ⟨fromAccount', gasAccount, fromAssetA, fromAssetGas, gasAssetGas, -, hG, hFA, hFG, hGG,
    -, -⟩ := withdrawParams_passed accountInfoMap assetInfoMap txInfo hparams
  obtain ⟨m, hm, -, -, -⟩ := withdrawDeltaMap_entries txInfo
  refine ⟨?_, ?_⟩
  · intro e he
    simp [VerifyWithdrawTxInfo, hparams, hsender, hnonce, hm, he, deref]
  · intro pk hk
    refine ⟨?_, ?_, ?_⟩
    · intro e he
      simp [VerifyWithdrawTxInfo, hparams, hsender, hnonce, hm, hk, he, deref]
    · intro hv
      simp [VerifyWithdrawTxInfo, hparams, hsender, hnonce, hm, hk, hv, deref]
    · intro hv
      simp only [VerifyWithdrawTxInfo, hparams, hsender, hnonce, hm, hk, hv, hG, hFA, hFG, hGG,
        deref, ne_eq, not_true_eq_false, if_false, Bool.false_eq_true, Bool.not_true]
      exact ⟨_, _, _, rfl⟩

/-- Every call of `VerifyWithdrawTxInfo` returns, and returns either three records
with a nil error or no record with an error. -/
theorem withdraw_outcome_shape (prim : Primitives) (accountInfoMap : GoMap Account)
    (assetInfoMap : GoMap (GoMap AccountAsset)) (txInfo : WithdrawTxInfo) :
    (∃ r1 r2 r3, VerifyWithdrawTxInfo prim accountInfoMap assetInfoMap txInfo =
      Outcome.ret [r1, r2, r3] none) ∨
    (∃ e, VerifyWithdrawTxInfo prim accountInfoMap assetInfoMap txInfo =
      Outcome.ret [] (some e)) := by
  cases hp : withdrawParamsInvalid accountInfoMap assetInfoMap txInfo with
  | true => exact Or.inr ⟨GoError.errorsNew "[VerifyTransferNftTxInfo] invalid params",
      by simp [VerifyWithdrawTxInfo, hp]⟩
  | false =>
    obtain ⟨fromAccount, -, -, -, -, hF, -⟩ :=
      withdrawParams_passed accountInfoMap assetInfoMap txInfo hp
    by_cases hn : txInfo.Nonce = fromAccount.Nonce
    · obtain ⟨hkey, hsig⟩ :=
        withdraw_after_nonce prim accountInfoMap assetInfoMap txInfo fromAccount hp hF hn
      cases hk : prim.ParsePkStr fromAccount.PublicKey with
      | error e => exact Or.inr ⟨_, hkey e hk⟩
      | ok pk =>
        obtain ⟨herr, hfalse, htrue⟩ := hsig pk hk
        cases hv : prim.Verify pk txInfo.Sig (prim.ComputeWithdrawMsgHash txInfo) with
        | error e => exact Or.inr ⟨_, herr e hv⟩
        | ok isValid =>
          cases isValid with
          | false => exact Or.inr ⟨_, hfalse hv⟩
          | true => exact Or.inl (htrue hv)
    · exact Or.inr ⟨GoError.errorsNew "[VerifyWithdrawTxInfo] invalid nonce",
        by simp [VerifyWithdrawTxInfo, hp, hF, deref, hn]⟩

/-- A call of `VerifySetNftPriceTxInfo` panics, or returns three records with a nil
error, or returns no record with an error; it panics exactly when the parameter
condition dereferences the missing NFT. -/
theorem setNftPrice_outcome_shape (prim : Primitives) (accountInfoMap : GoMap Account)
    (assetInfoMap : GoMap (GoMap AccountAsset)) (nftInfoMap : GoMap L2Nft)
    (txInfo : SetNftPriceTxInfo) :
    (setNftPriceParamsInvalid accountInfoMap assetInfoMap nftInfoMap txInfo = none ∧
      VerifySetNftPriceTxInfo prim accountInfoMap assetInfoMap nftInfoMap txInfo =
        Outcome.panic) ∨
    (setNftPriceParamsInvalid accountInfoMap assetInfoMap nftInfoMap txInfo ≠ none ∧
      ((∃ r1 r2 r3, VerifySetNftPriceTxInfo prim accountInfoMap assetInfoMap nftInfoMap txInfo =
          Outcome.ret [r1, r2, r3] none) ∨
        (∃ e, VerifySetNftPriceTxInfo prim accountInfoMap assetInfoMap nftInfoMap txInfo =
          Outcome.ret [] (some e)))) := by
  cases hp : setNftPriceParamsInvalid accountInfoMap assetInfoMap nftInfoMap txInfo with
  | none => exact Or.inl ⟨rfl, by simp [VerifySetNftPriceTxInfo, hp, deref]⟩
  | some invalid =>
    refine Or.inr ⟨by simp, ?_⟩
    cases invalid with
    | true => exact Or.inr ⟨GoError.errorsNew "[VerifySetNftPriceTxInfo] invalid params",
        by simp [VerifySetNftPriceTxInfo, hp, deref]⟩
    | false =>
      obtain ⟨fromAccount, -, fromAssetGas, -, -, hF, -, hFG, -⟩ :=
        setNftPriceParams_passed accountInfoMap assetInfoMap nftInfoMap txInfo hp
      by_cases hn : txInfo.Nonce = fromAccount.Nonce
      · obtain ⟨hparse, hshort, hrest⟩ :=
          setNftPrice_after_nonce prim accountInfoMap assetInfoMap nftInfoMap txInfo
            fromAccount fromAssetGas hp hF hn hFG
        cases hb : SetString10 fromAssetGas.Balance with
        | none => exact Or.inr ⟨_, hparse hb⟩
        | some b =>
          by_cases hlt : b < txInfo.GasFeeAssetAmount
          · exact Or.inr ⟨_, hshort b hb hlt⟩
          · obtain ⟨hkey, hsig⟩ := hrest b hb (not_lt.1 hlt)
            cases hk : prim.ParsePkStr fromAccount.PublicKey with
            | error e => exact Or.inr ⟨_, hkey e hk⟩
            | ok pk =>
              obtain ⟨herr, hfalse, htrue⟩ := hsig pk hk
              cases hv : prim.Verify pk txInfo.Sig
                  (prim.ComputeSetNftPriceMsgHash txInfo) with
              | error e => exact Or.inr ⟨_, herr e hv⟩
              | ok isValid =>
                cases isValid with
                | false => exact Or.inr ⟨_, hfalse hv⟩
                | true => exact Or.inl (htrue hv)
      · exact Or.inr ⟨GoError.errorsNew "[VerifySetNftPriceTxInfo] invalid nonce",
          by simp [VerifySetNftPriceTxInfo, hp, hF, deref, hn]⟩

/-- Acceptance by `VerifyWithdrawTxInfo` implies authenticity, and a sender key that
does not parse or a signature that does not verify to true gives an error and no
records. -/
theorem withdraw_authenticity (prim : Primitives) (accountInfoMap : GoMap Account)
    (assetInfoMap : GoMap (GoMap AccountAsset)) (txInfo : WithdrawTxInfo) :
    (∀ ds, VerifyWithdrawTxInfo prim accountInfoMap assetInfoMap txInfo = Outcome.ret ds none →
      ∃ fromAccount pk, accountInfoMap txInfo.FromAccountIndex = some fromAccount ∧
        prim.ParsePkStr fromAccount.PublicKey = Except.ok pk ∧
        prim.Verify pk txInfo.Sig (prim.ComputeWithdrawMsgHash txInfo) = Except.ok true) ∧
    (∀ fromAccount, accountInfoMap txInfo.FromAccountIndex = some fromAccount →
      (∀ pk, prim.ParsePkStr fromAccount.PublicKey = Except.ok pk →
        prim.Verify pk txInfo.Sig (prim.ComputeWithdrawMsgHash txInfo) ≠ Except.ok true) →
      ∃ e, VerifyWithdrawTxInfo prim accountInfoMap assetInfoMap txInfo =
        Outcome.ret [] (some e)) := by
  have hinv : ∀ ds,
      VerifyWithdrawTxInfo prim accountInfoMap assetInfoMap txInfo = Outcome.ret ds none →
      ∃ fromAccount pk, accountInfoMap txInfo.FromAccountIndex = some fromAccount ∧
        prim.ParsePkStr fromAccount.PublicKey = Except.ok pk ∧
        prim.Verify pk txInfo.Sig (prim.ComputeWithdrawMsgHash txInfo) = Except.ok true := by
    intro ds h
    obtain ⟨fromAccount, -, -, -, -, -, pk, hF, -, -, -, -, -, -, -, hk, hv, -, -⟩ :=
      withdraw_accept_inv prim accountInfoMap assetInfoMap txInfo ds h
    exact ⟨fromAccount, pk, hF, hk, hv⟩
  refine ⟨hinv, ?_⟩
  intro fromAccount hF hbad
  rcases withdraw_outcome_shape prim accountInfoMap assetInfoMap txInfo with
    ⟨r1, r2, r3, h⟩ | h
  · obtain ⟨a, pk, ha, hk, hv⟩ := hinv _ h
    rw [hF] at ha
    cases ha
    exact absurd hv (hbad pk hk)
  · exact h

/-- Acceptance by `VerifySetNftPriceTxInfo` implies authenticity; a sender key that
does not parse or a signature that does not verify to true gives an error and no
records, provided the parameter condition does not dereference a missing NFT. -/
theorem setNftPrice_authenticity (prim : Primitives) (accountInfoMap : GoMap Account)
    (assetInfoMap : GoMap (GoMap AccountAsset)) (nftInfoMap : GoMap L2Nft)
    (txInfo : SetNftPriceTxInfo) :
    (∀ ds, VerifySetNftPriceTxInfo prim accountInfoMap assetInfoMap nftInfoMap txInfo =
        Outcome.ret ds none →
      ∃ fromAccount pk, accountInfoMap txInfo.AccountIndex = some fromAccount ∧
        prim.ParsePkStr fromAccount.PublicKey = Except.ok pk ∧
        prim.Verify pk txInfo.Sig (prim.ComputeSetNftPriceMsgHash txInfo) = Except.ok true) ∧
    (∀ fromAccount, accountInfoMap txInfo.AccountIndex = some fromAccount →
      setNftPriceParamsInvalid accountInfoMap assetInfoMap nftInfoMap txInfo ≠ none →
      (∀ pk, prim.ParsePkStr fromAccount.PublicKey = Except.ok pk →
        prim.Verify pk txInfo.Sig (prim.ComputeSetNftPriceMsgHash txInfo) ≠ Except.ok true) →
      ∃ e, VerifySetNftPriceTxInfo prim accountInfoMap assetInfoMap nftInfoMap txInfo =
        Outcome.ret [] (some e)) := by
  have hinv : ∀ ds,
      VerifySetNftPriceTxInfo prim accountInfoMap assetInfoMap nftInfoMap txInfo =
        Outcome.ret ds none →
      ∃ fromAccount pk, accountInfoMap txInfo.AccountIndex = some fromAccount ∧
        prim.ParsePkStr fromAccount.PublicKey = Except.ok pk ∧
        prim.Verify pk txInfo.Sig (prim.ComputeSetNftPriceMsgHash txInfo) = Except.ok true := by
    intro ds h
    obtain ⟨fromAccount, -, -, -, -, -, -, pk, hF, -, -, -, -, -, -, -, -, -, -, -, -, -, hk, hv,
      -, -⟩ := setNftPrice_accept_inv prim accountInfoMap assetInfoMap nftInfoMap txInfo ds h
    exact ⟨fromAccount, pk, hF, hk, hv⟩
  refine ⟨hinv, ?_⟩
  intro fromAccount hF hnopanic hbad
  rcases setNftPrice_outcome_shape prim accountInfoMap assetInfoMap nftInfoMap txInfo with
    ⟨hnone, -⟩ | ⟨-, ⟨r1, r2, r3, h⟩ | h⟩
  · exact absurd hnone hnopanic
  · obtain ⟨a, pk, ha, hk, hv⟩ := hinv _ h
    rw [hF] at ha
    cases ha
    exact absurd hv (hbad pk hk)
  · exact h

/-- C13: the sender's stored key `""` does not parse, yet on an NFT snapshot with an
entry at key `AccountIndex` (5) and none at key `NftIndex` (42)
`VerifySetNftPriceTxInfo` does not return an error: it panics on the dereference of
`nftInfoMap[txInfo.NftIndex]`. -/
theorem setNftPrice_unparsable_key_panics :
    (unparsableKeyAccounts sampleSetNftPrice.AccountIndex).map
        (fun a => (samplePrimitives.ParsePkStr a.PublicKey).toOption) = some none ∧
    nftsWithout42 sampleSetNftPrice.AccountIndex ≠ none ∧
    nftsWithout42 sampleSetNftPrice.NftIndex = none ∧
    VerifySetNftPriceTxInfo samplePrimitives unparsableKeyAccounts sampleAssets nftsWithout42
      sampleSetNftPrice = Outcome.panic := by
  refine ⟨rfl, by decide, by decide, by decide⟩

/-- C14: the price-set of NFT 43 by account 5 on `sampleNfts`, which holds NFT 5 and
NFT 42 and no NFT 43, returns neither records nor an error: the call panics. -/
theorem setNftPrice_no_return :
    sampleNfts 43 = none ∧
    VerifySetNftPriceTxInfo samplePrimitives sampleAccounts sampleAssets sampleNfts
        { sampleSetNftPrice with NftIndex := 43 } = Outcome.panic ∧
    ∀ ds e, VerifySetNftPriceTxInfo samplePrimitives sampleAccounts sampleAssets sampleNfts
        { sampleSetNftPrice with NftIndex := 43 } ≠ Outcome.ret ds e := by
  have h : VerifySetNftPriceTxInfo samplePrimitives sampleAccounts sampleAssets sampleNfts
      { sampleSetNftPrice with NftIndex := 43 } = Outcome.panic := by decide
  refine ⟨by decide, h, ?_⟩
  intro ds e
  rw [h]
  simp

/-- C15: in an accepted withdraw with `AssetId == GasFeeAssetId` and a sender other
than the gas account, the sender's delta for that asset is
`-(AssetAmount + GasFeeAssetAmount)`; the first and the second record both report
it, and it differs from `-GasFeeAssetAmount` as soon as the amount is not zero. -/
theorem withdraw_same_asset_accumulates (prim : Primitives) (accountInfoMap : GoMap Account)
    (assetInfoMap : GoMap (GoMap AccountAsset)) (txInfo : WithdrawTxInfo)
    (ds : List MempoolTxDetail)
    (hacc : VerifyWithdrawTxInfo prim accountInfoMap assetInfoMap txInfo = Outcome.ret ds none)
    (hasset : txInfo.AssetId = txInfo.GasFeeAssetId)
    (hsender : txInfo.FromAccountIndex ≠ txInfo.GasAccountIndex) :
    ∃ r1 r2 r3,
      ds = [r1, r2, r3] ∧
      r1.AccountIndex = txInfo.FromAccountIndex ∧ r1.AssetId = txInfo.AssetId ∧
      r2.AccountIndex = txInfo.FromAccountIndex ∧ r2.AssetId = txInfo.GasFeeAssetId ∧
      deltaOf r1 = some (-(txInfo.AssetAmount + txInfo.GasFeeAssetAmount)) ∧
      deltaOf r2 = some (-(txInfo.AssetAmount + txInfo.GasFeeAssetAmount)) ∧
      (txInfo.AssetAmount ≠ 0 → deltaOf r2 ≠ some (-txInfo.GasFeeAssetAmount)) := by
  obtain ⟨fromAccount, gasAccount, fromAssetA, fromAssetGas, gasAssetGas, m, pk, -, -, -,
    -, -, -, -, -, -, -, hm, hds⟩ :=
    withdraw_accept_inv prim accountInfoMap assetInfoMap txInfo ds hacc
  obtain ⟨m', hm', e1, e2, -⟩ := withdrawDeltaMap_entries txInfo
  rw [hm] at hm'
  cases hm'
  rw [e1, e2] at hds
  simp only [if_pos hasset, if_neg hsender] at hds
  have hsum : -txInfo.AssetAmount - txInfo.GasFeeAssetAmount =
      -(txInfo.AssetAmount + txInfo.GasFeeAssetAmount) := by omega
  rw [hsum] at hds
  refine ⟨_, _, _, hds, rfl, rfl, rfl, rfl, SetString10_bigString _, SetString10_bigString _,
    ?_⟩
  intro hamount
  show SetString10 (bigString _) ≠ _
  rw [SetString10_bigString]
  intro h
  apply hamount
  have h' := Option.some.inj h
  omega

/-- The withdraw of 30 of asset 2 with a fee of 5 of asset 2 reports `-35` twice. -/
theorem withdraw_same_asset_accumulates_witness :
    VerifyWithdrawTxInfo samplePrimitives sampleAccounts sampleAssets sameAssetWithdraw =
      Outcome.ret sameAssetWithdrawRecords none ∧
    sameAssetWithdraw.AssetId = sameAssetWithdraw.GasFeeAssetId ∧
    sameAssetWithdraw.FromAccountIndex ≠ sameAssetWithdraw.GasAccountIndex ∧
    sameAssetWithdrawRecords.map deltaOf = [some (-35), some (-35), some 5] ∧
    ∃ r1 r2 r3,
      sameAssetWithdrawRecords = [r1, r2, r3] ∧
      r1.AccountIndex = sameAssetWithdraw.FromAccountIndex ∧
      r1.AssetId = sameAssetWithdraw.AssetId ∧
      r2.AccountIndex = sameAssetWithdraw.FromAccountIndex ∧
      r2.AssetId = sameAssetWithdraw.GasFeeAssetId ∧
      deltaOf r1 =
        some (-(sameAssetWithdraw.AssetAmount + sameAssetWithdraw.GasFeeAssetAmount)) ∧
      deltaOf r2 =
        some (-(sameAssetWithdraw.AssetAmount + sameAssetWithdraw.GasFeeAssetAmount)) ∧
      (sameAssetWithdraw.AssetAmount ≠ 0 →
        deltaOf r2 ≠ some (-sameAssetWithdraw.GasFeeAssetAmount)) :=
  ⟨by decide, by decide, by decide, by decide,
    withdraw_same_asset_accumulates samplePrimitives sampleAccounts sampleAssets
      sameAssetWithdraw sameAssetWithdrawRecords (by decide) (by decide) (by decide)⟩

/-- C16: an accepted price-set returns exactly three records, in the order (sender,
GasFeeAssetId, fungible), (sender, NftIndex, non-fungible), (gas account,
GasFeeAssetId, fungible); with a sender other than the gas account the first delta
is `-GasFeeAssetAmount` and the third `+GasFeeAssetAmount`, and in every case the
first and the third delta sum to zero. -/
theorem setNftPrice_three_records (prim : Primitives) (accountInfoMap : GoMap Account)
    (assetInfoMap : GoMap (GoMap AccountAsset)) (nftInfoMap : GoMap L2Nft)
    (txInfo : SetNftPriceTxInfo) (ds : List MempoolTxDetail)
    (hacc : VerifySetNftPriceTxInfo prim accountInfoMap assetInfoMap nftInfoMap txInfo =
      Outcome.ret ds none) :
    ∃ r1 r2 r3 d1 d3,
      ds = [r1, r2, r3] ∧
      (r1.AccountIndex, r1.AssetId, r1.AssetType) =
        (txInfo.AccountIndex, txInfo.GasFeeAssetId, GeneralAssetType) ∧
      (r2.AccountIndex, r2.AssetId, r2.AssetType) =
        (txInfo.AccountIndex, txInfo.NftIndex, NftAssetType) ∧
      (r3.AccountIndex, r3.AssetId, r3.AssetType) =
        (txInfo.GasAccountIndex, txInfo.GasFeeAssetId, GeneralAssetType) ∧
      deltaOf r1 = some d1 ∧ deltaOf r3 = some d3 ∧
      (txInfo.AccountIndex ≠ txInfo.GasAccountIndex →
        d1 = -txInfo.GasFeeAssetAmount ∧ d3 = txInfo.GasFeeAssetAmount) ∧
      d1 + d3 = 0 := by
  obtain ⟨fromAccount, gasAccount, fromAssetGas, gasAssetGas, nftInfo, bal, m, pk, -, -, -, -,
    -, -, -, -, -, -, -, -, -, -, -, -, hm, hds⟩ :=
    setNftPrice_accept_inv prim accountInfoMap assetInfoMap nftInfoMap txInfo ds hacc
  obtain ⟨m', hm', e1, e2⟩ := setNftPriceDeltaMap_entries txInfo
  rw [hm] at hm'
  cases hm'
  rw [e1, e2] at hds
  refine ⟨_, _, _, _, _, hds, rfl, rfl, rfl, SetString10_bigString _, SetString10_bigString _,
    ?_, ?_⟩
  · intro hne
    simp only [if_neg hne, and_self]
  · by_cases h : txInfo.AccountIndex = txInfo.GasAccountIndex
    · simp only [if_pos h]; omega
    · simp only [if_neg h]; omega

/-- The sample price-set returns its three records with deltas `-5` and `5` on the
gas legs. -/
theorem setNftPrice_three_records_witness :
    VerifySetNftPriceTxInfo samplePrimitives sampleAccounts sampleAssets sampleNfts
        sampleSetNftPrice = Outcome.ret sampleSetNftPriceRecords none ∧
    ∃ r1 r2 r3 d1 d3,
      sampleSetNftPriceRecords = [r1, r2, r3] ∧
      (r1.AccountIndex, r1.AssetId, r1.AssetType) =
        (sampleSetNftPrice.AccountIndex, sampleSetNftPrice.GasFeeAssetId, GeneralAssetType) ∧
      (r2.AccountIndex, r2.AssetId, r2.AssetType) =
        (sampleSetNftPrice.AccountIndex, sampleSetNftPrice.NftIndex, NftAssetType) ∧
      (r3.AccountIndex, r3.AssetId, r3.AssetType) =
        (sampleSetNftPrice.GasAccountIndex, sampleSetNftPrice.GasFeeAssetId,
          GeneralAssetType) ∧
      deltaOf r1 = some d1 ∧ deltaOf r3 = some d3 ∧
      (sampleSetNftPrice.AccountIndex ≠ sampleSetNftPrice.GasAccountIndex →
        d1 = -sampleSetNftPrice.GasFeeAssetAmount ∧
          d3 = sampleSetNftPrice.GasFeeAssetAmount) ∧
      d1 + d3 = 0 :=
  ⟨by decide,
    setNftPrice_three_records samplePrimitives sampleAccounts sampleAssets sampleNfts
      sampleSetNftPrice sampleSetNftPriceRecords (by decide)⟩

/-- C17: `VerifyWithdrawTxInfo` returns records and no error exactly when both
accounts exist, the sender's entries for `AssetId` and `GasFeeAssetId` and the gas
account's entry for `GasFeeAssetId` exist, both amounts are non-negative, the nonce
equals the sender's snapshot nonce, the sender's public key parses and the
signature verifies to true; the records are then three. -/
theorem withdraw_accept_iff (prim : Primitives) (accountInfoMap : GoMap Account)
    (assetInfoMap : GoMap (GoMap AccountAsset)) (txInfo : WithdrawTxInfo) :
    ((∃ ds, VerifyWithdrawTxInfo prim accountInfoMap assetInfoMap txInfo =
        Outcome.ret ds none) ↔
      ∃ fromAccount pk,
        accountInfoMap txInfo.FromAccountIndex = some fromAccount ∧
        accountInfoMap txInfo.GasAccountIndex ≠ none ∧
        index2 assetInfoMap txInfo.FromAccountIndex txInfo.AssetId ≠ none ∧
        index2 assetInfoMap txInfo.FromAccountIndex txInfo.GasFeeAssetId ≠ none ∧
        index2 assetInfoMap txInfo.GasAccountIndex txInfo.GasFeeAssetId ≠ none ∧
        0 ≤ txInfo.AssetAmount ∧ 0 ≤ txInfo.GasFeeAssetAmount ∧
        txInfo.Nonce = fromAccount.Nonce ∧
        prim.ParsePkStr fromAccount.PublicKey = Except.ok pk ∧
        prim.Verify pk txInfo.Sig (prim.ComputeWithdrawMsgHash txInfo) = Except.ok true) ∧
    (∀ ds, VerifyWithdrawTxInfo prim accountInfoMap assetInfoMap txInfo = Outcome.ret ds none →
      ds.length = 3) := by
  refine ⟨⟨?_, ?_⟩, ?_⟩
  · rintro ⟨ds, h⟩
    obtain ⟨fromAccount, gasAccount, fromAssetA, fromAssetGas, gasAssetGas, m, pk, hF, hG, hFA,
      hFG, hGG, ha, hf, hn, hk, hv, -, -⟩ :=
      withdraw_accept_inv prim accountInfoMap assetInfoMap txInfo ds h
    refine ⟨fromAccount, pk, hF, ?_, ?_, ?_, ?_, ha, hf, hn, hk, hv⟩
    · rw [hG]; simp
    · rw [hFA]; simp
    · rw [hFG]; simp
    · rw [hGG]; simp
  · rintro ⟨fromAccount, pk, hF, hG, hFA, hFG, hGG, ha, hf, hn, hk, hv⟩
    have hp : withdrawParamsInvalid accountInfoMap assetInfoMap txInfo = false := by
      have hFm : assetInfoMap txInfo.FromAccountIndex ≠ none := by
        intro h0; apply hFA; simp [index2, h0]
      have hGm : assetInfoMap txInfo.GasAccountIndex ≠ none := by
        intro h0; apply hGG; simp [index2, h0]
      have hF' : accountInfoMap txInfo.FromAccountIndex ≠ none := by rw [hF]; simp
      simp [withdrawParamsInvalid, Option.isSome_iff_ne_none, hF', hG, hFA, hFG, hGG, hFm, hGm,
        ha, hf]
    obtain ⟨r1, r2, r3, hr⟩ :=
      ((withdraw_after_nonce prim accountInfoMap assetInfoMap txInfo fromAccount hp hF hn).2
        pk hk).2.2 hv
    exact ⟨_, hr⟩
  · intro ds h
    obtain ⟨fromAccount, gasAccount, fromAssetA, fromAssetGas, gasAssetGas, m, pk, -, -, -,
      -, -, -, -, -, -, -, -, hds⟩ :=
      withdraw_accept_inv prim accountInfoMap assetInfoMap txInfo ds h
    rw [hds]
    rfl

/-- The sample withdraw meets every condition of the characterisation, hence is
accepted, with three records. -/
theorem withdraw_accept_iff_witness :
    ∃ ds, VerifyWithdrawTxInfo samplePrimitives sampleAccounts sampleAssets sampleWithdraw =
      Outcome.ret ds none ∧ ds.length = 3 :=
  have hacc := (withdraw_accept_iff samplePrimitives sampleAccounts sampleAssets
    sampleWithdraw).1.2
    ⟨{ AccountName := "alice.legend", PublicKey := "A", Nonce := 7 }, [65], by decide,
      by decide, by decide, by decide, by decide, by decide, by decide, by decide, rfl, rfl⟩
  hacc.elim fun ds h =>
    ⟨ds, h, (withdraw_accept_iff samplePrimitives sampleAccounts sampleAssets
      sampleWithdraw).2 ds h⟩

end TxVerification

namespace Transaction

/-- When every fetch succeeds the loop appends the API forms in the order of the
ids. -/
theorem fetchTxs_all_ok (c : Collaborators) (fetch : Int → GormTx) :
    ∀ (ids : List Int) (txs : List Tx),
      (∀ id ∈ ids, c.GetTxByTxID id = Except.ok (fetch id)) →
      fetchTxs c ids txs = Except.ok (txs ++ ids.map fun id => c.GormTx2Tx (fetch id)) := by
  intro ids
  induction ids with
  | nil => intro txs _; simp [fetchTxs]
  | cons id ids ih =>
    intro txs h
    have hid := h id (List.mem_cons_self id ids)
    have hrest : ∀ j ∈ ids, c.GetTxByTxID j = Except.ok (fetch j) :=
      fun j hj => h j (List.mem_cons_of_mem id hj)
    simp only [fetchTxs, hid]
    rw [ih _ hrest]
    simp

/-- The page window is well formed as long as `Offset + Limit` does not wrap around:
then `Offset ≤ end ≤ Total`, the slice does not panic, and the response holds the
`min(Limit, Total - Offset)` transactions of the window, in the order of the ids,
with `Total` the full count. -/
theorem GetTxsByPubKey_window (c : Collaborators) (req : ReqGetTxsByPubKey)
    (accountIndex : Int) (txIds : List Int) (fetch : Int → GormTx)
    (haccount : c.GetAccountByPk req.AccountPk = Except.ok accountIndex)
    (hids : c.GetTxIdsByAccountIndex accountIndex = Except.ok txIds)
    (htotal : txIds.length < 2 ^ 32)
    (hcheck : c.CheckOffset req.Offset txIds.length = false)
    (hoffset : req.Offset ≤ txIds.length)
    (hnowrap : req.Offset + req.Limit < 2 ^ 32)
    (hfetch : ∀ id ∈ txIds, c.GetTxByTxID id = Except.ok (fetch id)) :
    req.Offset ≤ windowEnd txIds.length req.Offset req.Limit ∧
    windowEnd txIds.length req.Offset req.Limit ≤ txIds.length ∧
    GetTxsByPubKey c req =
      Reply.ret
        (some { Total := txIds.length,
                Txs := ((txIds.drop req.Offset).take
                  (min req.Limit (txIds.length - req.Offset))).map
                    fun id => c.GormTx2Tx (fetch id) }) none ∧
    ((txIds.drop req.Offset).take (min req.Limit (txIds.length - req.Offset))).length =
      min req.Limit (txIds.length - req.Offset) := by
  have hsum : uint32 (req.Offset + req.Limit) = req.Offset + req.Limit :=
    Nat.mod_eq_of_lt hnowrap
  have htot : uint32 txIds.length = txIds.length := Nat.mod_eq_of_lt htotal
  have hend : windowEnd txIds.length req.Offset req.Limit =
      req.Offset + min req.Limit (txIds.length - req.Offset) := by
    unfold windowEnd
    rw [hsum]
    split <;> omega
  have hlo : req.Offset ≤ windowEnd txIds.length req.Offset req.Limit := by
    rw [hend]; omega
  have hhi : windowEnd txIds.length req.Offset req.Limit ≤ txIds.length := by
    rw [hend]; omega
  have hlen : ((txIds.drop req.Offset).take
      (min req.Limit (txIds.length - req.Offset))).length =
      min req.Limit (txIds.length - req.Offset) := by
    rw [List.length_take, List.length_drop]
    omega
  refine ⟨hlo, hhi, ?_, hlen⟩
  have hslice : sliceRange txIds req.Offset (windowEnd txIds.length req.Offset req.Limit) =
      some ((txIds.drop req.Offset).take (min req.Limit (txIds.length - req.Offset))) := by
    unfold sliceRange
    rw [if_pos ⟨hlo, hhi⟩, hend]
    congr 2
    omega
  have hsub : ∀ id ∈ (txIds.drop req.Offset).take (min req.Limit (txIds.length - req.Offset)),
      c.GetTxByTxID id = Except.ok (fetch id) :=
    fun id hid => hfetch id (List.mem_of_mem_drop (List.mem_of_mem_take hid))
  simp only [GetTxsByPubKey, haccount, hids, htot, hcheck, hslice,
    fetchTxs_all_ok c fetch _ [] hsub, List.nil_append, Bool.false_eq_true, if_false]

/-- C18: with ten transaction ids, `Offset = 5` and `Limit = 4294967295` the `uint32`
sum `Offset + Limit` wraps to 4, the window end is 4 although `Offset ≤ Total`, and
the slice `txIds[5:4]` panics; with `Limit = 3` the same request is served. -/
theorem GetTxsByPubKey_limit_overflow_panics :
    sampleCollaborators.CheckOffset 5 10 = false ∧
    windowEnd 10 5 4294967295 = 4 ∧
    sliceRange [100, 101, 102, 103, 104, 105, 106, 107, 108, 109] 5 4 = none ∧
    GetTxsByPubKey sampleCollaborators
        { AccountPk := "pk", Offset := 5, Limit := 4294967295 } = Reply.panic ∧
    GetTxsByPubKey sampleCollaborators { AccountPk := "pk", Offset := 5, Limit := 3 } =
      Reply.ret
        (some { Total := 10,
                Txs := [{ TxHash := "tx105" }, { TxHash := "tx106" }, { TxHash := "tx107" }] })
        none := by
  refine ⟨by decide, by decide, by decide, by decide, by decide⟩

end Transaction
